import Mathlib

/-!
Verification of the gbc-emulator core against its natural-language
specification.  Every definition below is a shallow embedding of a function
from the C sources (src/src/timer.c, joypad.c, ppu.c, apu.c, bus.c, cpu.c);
machine integers are modelled as `Nat` with explicit `% 2^w` where the C
types wrap, C arrays are modelled as functions, and the file-scope statics
of each module are gathered into a state structure that the embedded
functions thread explicitly.
-/

namespace Gbc

/-- Pointwise update of a function-modelled byte array. -/
def upd (a : Nat → Nat) (i v : Nat) : Nat → Nat :=
  fun x => if x = i then v else a x

/-! ## Timer (src/src/timer.c)

The `timer_t` file-scope static: DIV byte, its prescaler count, TIMA, its
prescaler count, TMA and TAC. -/

structure TimerState where
  DIVA : Nat
  DIVA_PRESC_CNT : Nat
  TIMA : Nat
  TIMA_PRESC_CNT : Nat
  TMA : Nat
  TAC : Nat

/-- `gbc_timer_get_memory` from timer.c: dispatch on the four timer
registers, default returns the 0-initialised `ret`. -/
def gbc_timer_get_memory (t : TimerState) (addr : Nat) : Nat :=
  if addr = 0xFF04 then t.DIVA
  else if addr = 0xFF05 then t.TIMA
  else if addr = 0xFF06 then t.TMA
  else if addr = 0xFF07 then t.TAC
  else 0

/-- `gbc_timer_set_memory` from timer.c: a write to DIV (0xFF04) stores 0
into `timer.DIVA` and touches nothing else; TIMA/TMA/TAC writes store the
byte. -/
def gbc_timer_set_memory (t : TimerState) (addr v : Nat) : TimerState :=
  if addr = 0xFF04 then { t with DIVA := 0 }
  else if addr = 0xFF05 then { t with TIMA := v }
  else if addr = 0xFF06 then { t with TMA := v }
  else if addr = 0xFF07 then { t with TAC := v }
  else t

/-! ## Joypad (src/src/joypad.c)

The single static `JOYP` byte plus the host-input callback value
(`gbc_joypad_buttons_cb`), which we pass in as the `buttons` argument.
The function returns the updated `JOYP` and the byte read.  Note that
joypad.c contains no access to the interrupt-flags register at all. -/

/-- `gbc_joypad_get_memory` from joypad.c.  `JOYP |= 0x0F` releases all
keys, then the selected group(s) of `buttons` bits are cleared
(active-low); `~x` on a `uint8_t` is modelled as `x ^^^ 0xFF`. -/
def gbc_joypad_get_memory (JOYP buttons addr : Nat) : Nat × Nat :=
  if addr = 0xFF00 then
    let j := JOYP ||| 0x0F
    let j2 :=
      if j &&& 0x30 = 0x10 then j &&& (((buttons >>> 0) &&& 0x0F) ^^^ 0xFF)
      else if j &&& 0x30 = 0x20 then j &&& (((buttons >>> 4) &&& 0x0F) ^^^ 0xFF)
      else if j &&& 0x30 = 0x00 then
        j &&& ((((buttons >>> 0) &&& 0x0F) ^^^ 0xFF) &&& (((buttons >>> 4) &&& 0x0F) ^^^ 0xFF))
      else j
    (j2, j2)
  else (JOYP, 0)

/-- `gbc_joypad_set_memory` from joypad.c: only the selection bits 4-5 are
writable. -/
def gbc_joypad_set_memory (JOYP addr v : Nat) : Nat :=
  if addr = 0xFF00 then (JOYP &&& (0x30 ^^^ 0xFF)) ||| (v &&& 0x30)
  else JOYP

/-! ## PPU registers (src/src/ppu.c)

The `ppu_mem_t` file-scope static plus the VRAM/CRAM arrays and the mode
of the `ppu_state` machine (read gating of BCPD/OCPD depends on it).
Arrays are modelled as functions; the OAM union is kept in its raw-byte
view. -/

inductive PpuMode where
  | mode0_hblank
  | mode1_vblank
  | mode2_oam_scan
  | mode3_draw
deriving DecidableEq

structure PpuState where
  lcdc : Nat
  stat : Nat
  scy : Nat
  scx : Nat
  ly : Nat
  lyc : Nat
  bgp : Nat
  obp0 : Nat
  obp1 : Nat
  wy : Nat
  wx : Nat
  vbk : Nat
  bcps_bgpi : Nat
  ocps_obpi : Nat
  opri : Nat
  oam_raw : Nat → Nat
  vram0 : Nat → Nat
  vram1 : Nat → Nat
  bg_cram : Nat → Nat
  obj_cram : Nat → Nat
  mode : PpuMode

/-- `gbc_ppu_get_memory` from ppu.c.  `ret` starts at 0 and the `default`
case leaves it there.  In the C switch the `case LYC:` block assigns
`ret = ppu.lyc` but has no `break`, so control falls through into
`case BGP:` whose `ret = ppu.bgp` wins; a read of 0xFF45 therefore
returns the BGP register. -/
def gbc_ppu_get_memory (p : PpuState) (addr : Nat) : Nat :=
  if 0x8000 ≤ addr ∧ addr ≤ 0x9FFF then
    (if p.vbk &&& 0x01 = 0 then p.vram0 else p.vram1) (addr &&& 0x1FFF)
  else if addr = 0xFF40 then p.lcdc
  else if addr = 0xFF41 then p.stat
  else if addr = 0xFF42 then p.scy
  else if addr = 0xFF43 then p.scx
  else if addr = 0xFF44 then p.ly
  else if addr = 0xFF45 then p.bgp
  else if addr = 0xFF47 then p.bgp
  else if addr = 0xFF48 then p.obp0
  else if addr = 0xFF49 then p.obp1
  else if addr = 0xFF4A then p.wy
  else if addr = 0xFF4B then p.wx
  else if addr = 0xFF4F then p.vbk ||| 0xFE
  else if addr = 0xFF68 then p.bcps_bgpi
  else if addr = 0xFF69 then
    (if p.mode ≠ PpuMode.mode3_draw then p.bg_cram (p.bcps_bgpi &&& 0x3F) else 0)
  else if addr = 0xFF6A then p.ocps_obpi
  else if addr = 0xFF6B then
    (if p.mode ≠ PpuMode.mode3_draw then p.obj_cram (p.ocps_obpi &&& 0x3F) else 0)
  else if addr = 0xFF6C then p.opri
  else if 0xFE00 ≤ addr ∧ addr ≤ 0xFE9F then p.oam_raw (addr &&& 0x00FF)
  else 0

/-- `gbc_ppu_set_memory` from ppu.c (STAT keeps its read-only mode and
LYC-equal bits, VBK keeps bit 0, BCPD/OCPD write CRAM outside mode 3 and
honour the auto-increment bit). -/
def gbc_ppu_set_memory (p : PpuState) (addr v : Nat) : PpuState :=
  if 0x8000 ≤ addr ∧ addr ≤ 0x9FFF then
    (if p.vbk &&& 0x01 = 0 then { p with vram0 := upd p.vram0 (addr &&& 0x1FFF) v }
     else { p with vram1 := upd p.vram1 (addr &&& 0x1FFF) v })
  else if addr = 0xFF40 then { p with lcdc := v }
  else if addr = 0xFF41 then
    { p with stat := (p.stat &&& (0x03 ||| 0x04)) ||| (v &&& ((0x03 ||| 0x04) ^^^ 0xFF)) }
  else if addr = 0xFF42 then { p with scy := v }
  else if addr = 0xFF43 then { p with scx := v }
  else if addr = 0xFF44 then { p with ly := v }
  else if addr = 0xFF45 then { p with lyc := v }
  else if addr = 0xFF47 then { p with bgp := v }
  else if addr = 0xFF48 then { p with obp0 := v }
  else if addr = 0xFF49 then { p with obp1 := v }
  else if addr = 0xFF4A then { p with wy := v }
  else if addr = 0xFF4B then { p with wx := v }
  else if addr = 0xFF4F then { p with vbk := v &&& 0x01 }
  else if addr = 0xFF68 then { p with bcps_bgpi := v }
  else if addr = 0xFF69 then
    let p1 := if p.mode ≠ PpuMode.mode3_draw then
                { p with bg_cram := upd p.bg_cram (p.bcps_bgpi &&& 0x3F) v }
              else p
    if p1.bcps_bgpi &&& 0x80 ≠ 0 then
      { p1 with bcps_bgpi := (p1.bcps_bgpi + 1) &&& (0x3F ||| 0x80) }
    else p1
  else if addr = 0xFF6A then { p with ocps_obpi := v }
  else if addr = 0xFF6B then
    let p1 := if p.mode ≠ PpuMode.mode3_draw then
                { p with obj_cram := upd p.obj_cram (p.ocps_obpi &&& 0x3F) v }
              else p
    if p1.ocps_obpi &&& 0x80 ≠ 0 then
      { p1 with ocps_obpi := (p1.ocps_obpi + 1) &&& (0x3F ||| 0x80) }
    else p1
  else if addr = 0xFF6C then { p with opri := v }
  else if 0xFE00 ≤ addr ∧ addr ≤ 0xFE9F then { p with oam_raw := upd p.oam_raw (addr &&& 0x00FF) v }
  else p

/-! ## PPU pixel fetcher, OBJ tile selection (src/src/ppu.c, `ppu_pixel_fetcher_do`)

The `pfs_get_tile_0_e` step of the OBJ sub-pipeline: for 8x16 objects it
picks the tile number from the OAM tile index and adjusts the row offset;
the result is `(obj_tile_number, tile_y_offset)`.  The V-flip attribute is
not consulted here; it only changes the row addressing computed in the
`pfs_get_tile_data_*` steps, which is embedded below as
`obj_tile_data_index`. -/

def obj_fetch_tile_number (obj_size tile_idx tile_y_offset : Nat) : Nat × Nat :=
  if obj_size = 16 then
    if 8 ≤ tile_y_offset then
      (tile_idx &&& 0xFE, tile_y_offset - 8)
    else
      (tile_idx ||| 0x01, tile_y_offset)
  else (tile_idx, tile_y_offset)

/-- Byte index into the tile-data array used by the
`pfs_get_tile_data_lo_0_e` / `pfs_get_tile_data_hi_0_e` steps (ppu.c):
`tile*16 + (16 - 2*row) + hi_lo` when the object is V-flipped,
`tile*16 + 2*row + hi_lo` otherwise. -/
def obj_tile_data_index (y_flip : Bool) (tile_number tile_y_offset tile_hi_lo : Nat) : Nat :=
  if y_flip then tile_number * 16 + (16 - 2 * tile_y_offset) + tile_hi_lo
  else tile_number * 16 + 2 * tile_y_offset + tile_hi_lo

/-- A concrete PPU state used to evaluate the register file: every
register is 0, all arrays are zero-filled, mode is HBlank. -/
def ppu0 : PpuState where
  lcdc := 0
  stat := 0
  scy := 0
  scx := 0
  ly := 0
  lyc := 0
  bgp := 0
  obp0 := 0
  obp1 := 0
  wy := 0
  wx := 0
  vbk := 0
  bcps_bgpi := 0
  ocps_obpi := 0
  opri := 0
  oam_raw := fun _ => 0
  vram0 := fun _ => 0
  vram1 := fun _ => 0
  bg_cram := fun _ => 0
  obj_cram := fun _ => 0
  mode := PpuMode.mode0_hblank

/-! ## Bus (src/src/bus.c)

The `bus_t` file-scope static together with the static `rom` array and
the states of the components the bus dispatches to.  The APU register
file and the serial module (serial.c is not among the sources; the spec
describes it as a stub) are opaque to every claim below, so their reads
are modelled as abstract per-component read functions. -/

inductive VramDmaMode where
  | general_purpose_dma
  | HBlank_dma
deriving DecidableEq

structure OamDmaState where
  addr : Nat
  offset : Nat
  prescaler : Nat
  active : Bool

structure VramDmaState where
  src : Nat
  dst : Nat
  len : Nat
  mode : VramDmaMode
  active : Bool

structure SystemState where
  wram_banksel : Nat
  ext_ram_banksel : Nat
  rom_banksel : Nat
  ext_ram_enabled : Bool
  IF : Nat
  IE : Nat
  key1 : Nat
  dmg_mode : Bool
  cartridge_type : Nat
  oam_dma : OamDmaState
  vram_dma : VramDmaState
  wram : Nat → Nat → Nat
  ext_ram : Nat → Nat → Nat
  hram : Nat → Nat
  rom : Nat → Nat → Nat
  ppu : PpuState
  JOYP : Nat
  buttons : Nat
  timer : TimerState
  apu_rd : Nat → Nat
  serial_rd : Nat → Nat

/-- `bus_get_memory` from bus.c (the non-test-DLL branch).  Returns the
byte read and the successor state (only the joypad read mutates state:
`gbc_joypad_get_memory` rewrites its `JOYP` static).

The `case 0xFF55:` block computes `(bus.vram_dma.len / 16) - 1` with
bit 7 set when the transfer is inactive, but has no `break`: control
falls through into the PPU case group, so the returned byte is
`gbc_ppu_get_memory(0xFF55)` (whose switch has no 0xFF55 case and
returns 0), and the computed value is discarded. -/
def bus_get_memory (S : SystemState) (addr : Nat) : Nat × SystemState :=
  if addr ≤ 0x3FFF then (S.rom 0 (addr &&& 0x3FFF), S)
  else if addr ≤ 0x7FFF then (S.rom S.rom_banksel (addr &&& 0x3FFF), S)
  else if 0xA000 ≤ addr ∧ addr ≤ 0xBFFF then
    (if S.ext_ram_enabled then S.ext_ram S.ext_ram_banksel (addr &&& 0x1FFF) else 0, S)
  else if (0xC000 ≤ addr ∧ addr ≤ 0xCFFF) ∨ (0xE000 ≤ addr ∧ addr ≤ 0xEFFF) then
    (S.wram 0 (addr &&& 0xFFF), S)
  else if (0xD000 ≤ addr ∧ addr ≤ 0xDFFF) ∨ (0xF000 ≤ addr ∧ addr ≤ 0xFDFF) then
    (S.wram S.wram_banksel (addr &&& 0xFFF), S)
  else if addr = 0xFF46 then (S.oam_dma.addr, S)
  else if addr = 0xFF4C then (0, S)
  else if addr = 0xFF4D then (S.key1, S)
  else if 0xFF51 ≤ addr ∧ addr ≤ 0xFF54 then (0xFF, S)
  else if addr = 0xFF55 then (gbc_ppu_get_memory S.ppu addr, S)
  else if (0x8000 ≤ addr ∧ addr ≤ 0x9FFF) ∨ (0xFF40 ≤ addr ∧ addr ≤ 0xFF45) ∨
          (0xFF47 ≤ addr ∧ addr ≤ 0xFF4B) ∨ addr = 0xFF4F ∨
          (0xFF68 ≤ addr ∧ addr ≤ 0xFF6C) ∨ (0xFE00 ≤ addr ∧ addr ≤ 0xFE9F) then
    (gbc_ppu_get_memory S.ppu addr, S)
  else if 0xFF80 ≤ addr ∧ addr ≤ 0xFFFE then (S.hram (addr &&& 0x7F), S)
  else if addr = 0xFF0F then (S.IF, S)
  else if addr = 0xFFFF then (S.IE, S)
  else if addr = 0xFF00 then
    let r := gbc_joypad_get_memory S.JOYP S.buttons addr
    (r.2, { S with JOYP := r.1 })
  else if 0xFF01 ≤ addr ∧ addr ≤ 0xFF02 then (S.serial_rd addr, S)
  else if 0xFF04 ≤ addr ∧ addr ≤ 0xFF07 then (gbc_timer_get_memory S.timer addr, S)
  else if 0xFF10 ≤ addr ∧ addr ≤ 0xFF3F then (S.apu_rd addr, S)
  else if addr = 0xFF56 then (0x02, S)
  else if addr = 0xFF70 then (S.wram_banksel, S)
  else (0, S)

/-- `bus_write_mbc5` from bus.c: the MBC5 register decoder (`val` is a
`uint8_t` parameter, hence the `&&& 0xFF`). -/
def bus_write_mbc5 (S : SystemState) (addr v : Nat) : SystemState :=
  if addr ≤ 0x1FFF then
    if (v &&& 0xFF) &&& 0x0F = 0x0A then { S with ext_ram_enabled := true }
    else if (v &&& 0xFF) &&& 0x0F = 0x00 then { S with ext_ram_enabled := false }
    else S
  else if addr ≤ 0x2FFF then
    { S with rom_banksel := (S.rom_banksel &&& 0xFF00) ||| (v &&& 0xFF) }
  else if addr ≤ 0x3FFF then
    { S with rom_banksel := (S.rom_banksel &&& 0x00FF) ||| (((v &&& 0xFF) &&& 0x01) <<< 8) }
  else if 0x4000 ≤ addr ∧ addr ≤ 0x5FFF then
    { S with ext_ram_banksel := (v &&& 0xFF) &&& 0x0F }
  else S

/-- `bus_write_mbc` from bus.c: dispatch on the cartridge type byte
(0x19..0x1E select the MBC5 decoder, everything else is ignored). -/
def bus_write_mbc (S : SystemState) (addr v : Nat) : SystemState :=
  if 0x19 ≤ S.cartridge_type ∧ S.cartridge_type ≤ 0x1E then bus_write_mbc5 S addr v
  else S

/-- A concrete system state: zero-filled memories, MBC5 cartridge type,
ROM filled with 0xAB, all registers 0, joypad at reset value 0x3F with no
keys reported; the VRAM-DMA descriptor holds remaining length 32,
inactive. -/
def sys0 : SystemState where
  wram_banksel := 1
  ext_ram_banksel := 0
  rom_banksel := 1
  ext_ram_enabled := false
  IF := 0
  IE := 0
  key1 := 0
  dmg_mode := false
  cartridge_type := 0x19
  oam_dma := { addr := 0, offset := 0, prescaler := 0, active := false }
  vram_dma := { src := 0, dst := 0, len := 32, mode := VramDmaMode.HBlank_dma, active := false }
  wram := fun _ _ => 0
  ext_ram := fun _ _ => 0
  hram := fun _ => 0
  rom := fun _ _ => 0xAB
  ppu := ppu0
  JOYP := 0x3F
  buttons := 0
  timer := { DIVA := 0, DIVA_PRESC_CNT := 0, TIMA := 0, TIMA_PRESC_CNT := 0, TMA := 0, TAC := 0xF8 }
  apu_rd := fun _ => 0
  serial_rd := fun _ => 0

/-! ## APU (src/src/apu.c)

The frame-sequencer clock and the pulse-channel tick.  `gbc_apu_tick`
reads DIV each call and computes
`div_apu_512Hz = !!((last_div & DIV_APU_BIT) ^ (div & DIV_APU_BIT))`
with `DIV_APU_BIT = (1 << 5)` - a toggle detector on DIV bit 5, used in
both speed modes (apu.c has no double-speed case and no bit-6 variant);
a falling-edge-only test exists in the source only as a commented-out
line.  The flag is then passed to the four channel ticks. -/

def DIV_APU_BIT : Nat := 1 <<< 5

/-- The 512 Hz frame-sequencer strobe computed by `gbc_apu_tick` from the
previous and current DIV byte. -/
def div_apu_512Hz (last_div div : Nat) : Bool :=
  ((last_div &&& DIV_APU_BIT) ^^^ (div &&& DIV_APU_BIT)) ≠ 0

/-- The `ch12_t` channel state of apu.c (pulse channels 1 and 2). -/
structure Ch12State where
  running : Bool
  id : Nat
  wave_level_high : Bool
  output : Nat
  dc_pattern : Nat
  dc_pattern_bit : Nat
  period : Nat
  period_counter : Nat
  period_prescaler : Nat
  period_sweep_step : Nat
  period_sweep_dir_subtract : Bool
  period_sweep_pace : Nat
  period_sweep_pace_counter : Nat
  period_sweep_pace_prescaler : Nat
  length_timer : Nat
  length_timer_prescaler : Nat
  length_enable : Bool
  volume : Nat
  envelope_dir_increase : Bool
  envelope_sweep_pace : Nat
  envelope_sweep_pace_counter : Nat
  envelope_sweep_pace_prescaler : Nat

/-- The slice of the `apu_mem_t` register file that `apu_ch12_tick`
touches (the sweep write-back targets the CH1 shadow registers and the
master-control channel-active bits). -/
structure ApuRegs where
  ch1_sweep : Nat
  ch1_period_low : Nat
  ch1_period_high_ctrl : Nat
  audio_master_control : Nat

/-- The `/* Period / Duty-Cycle */` block of `apu_ch12_tick` (apu.c).
Each C `if (bound <= ++counter)` is modelled by incrementing first (with
the wrap of the C type) and keeping the incremented value when the bound
is not reached. -/
def apu_ch12_period_step (ch : Ch12State) : Ch12State :=
  let pp := (ch.period_prescaler + 1) % 0x100
  if 4 ≤ pp then
    let ch1 := { ch with period_prescaler := 0,
                         wave_level_high := ch.dc_pattern &&& (1 <<< ch.dc_pattern_bit) ≠ 0 }
    let pc := (ch1.period_counter + 1) % 0x10000
    if 0x800 ≤ pc then
      { ch1 with dc_pattern_bit := (ch1.dc_pattern_bit + 1) &&& 0x07,
                 period_counter := ch1.period }
    else { ch1 with period_counter := pc }
  else { ch with period_prescaler := pp }

/-- The `/* Period Sweep */` block of `apu_ch12_tick` (apu.c): guarded by
the 512 Hz strobe and a non-zero pace; the write-back targets the CH1
shadow registers (the C does so for any channel). -/
def apu_ch12_sweep_step (ch : Ch12State) (regs : ApuRegs) (flag512 : Bool) :
    Ch12State × ApuRegs :=
  if flag512 ∧ ch.period_sweep_pace ≠ 0 then
    let psp := (ch.period_sweep_pace_prescaler + 1) % 0x100
    if 4 ≤ psp then
      let pscnt := (ch.period_sweep_pace_counter + 1) % 0x100
      if ch.period_sweep_pace ≤ pscnt then
        let new_period :=
          if ch.period_sweep_dir_subtract then
            (ch.period - (ch.period >>> ch.period_sweep_step)) % 0x10000
          else
            (ch.period + (ch.period >>> ch.period_sweep_step)) % 0x10000
        let regs1 := { regs with
          ch1_period_low := (new_period &&& 0x7FF) &&& 0xFF,
          ch1_period_high_ctrl :=
            (regs.ch1_period_high_ctrl &&& 0xF8) ||| (((new_period &&& 0x7FF) >>> 8) &&& 0x07) }
        ({ ch with
            period_sweep_pace_prescaler := 0,
            period_sweep_pace_counter := 0,
            running := if 0x800 ≤ new_period then false else ch.running,
            period := new_period &&& 0x7FF,
            period_sweep_pace := (regs1.ch1_sweep &&& 0x70) >>> 4,
            period_sweep_dir_subtract := regs1.ch1_sweep &&& 0x08 ≠ 0,
            period_sweep_step := regs1.ch1_sweep &&& 0x07 }, regs1)
      else ({ ch with period_sweep_pace_prescaler := 0,
                      period_sweep_pace_counter := pscnt }, regs)
    else ({ ch with period_sweep_pace_prescaler := psp }, regs)
  else (ch, regs)

/-- The `/* length timer */` block of `apu_ch12_tick` (apu.c): on the
512 Hz strobe with length enabled, the 256 Hz prescaler advances and on
expiry the length timer counts up; reaching 64 clears it and turns the
channel off. -/
def apu_ch12_length_step (ch : Ch12State) (flag512 : Bool) : Ch12State :=
  if flag512 ∧ ch.length_enable then
    let ltp := (ch.length_timer_prescaler + 1) % 0x100
    if 2 ≤ ltp then
      let lt := (ch.length_timer + 1) % 0x100
      if 64 ≤ lt then { ch with length_timer_prescaler := 0, length_timer := 0, running := false }
      else { ch with length_timer_prescaler := 0, length_timer := lt }
    else { ch with length_timer_prescaler := ltp }
  else ch

/-- The `/* envelope (volume control) */` block of `apu_ch12_tick`
(apu.c). -/
def apu_ch12_envelope_step (ch : Ch12State) (flag512 : Bool) : Ch12State :=
  if flag512 ∧ ch.envelope_sweep_pace ≠ 0 then
    let esp := (ch.envelope_sweep_pace_prescaler + 1) % 0x100
    if 8 ≤ esp then
      let ecnt := (ch.envelope_sweep_pace_counter + 1) % 0x100
      if ch.envelope_sweep_pace ≤ ecnt then
        if ch.envelope_dir_increase then
          { ch with envelope_sweep_pace_prescaler := 0, envelope_sweep_pace_counter := 0,
                    volume := if ch.volume < 15 then ch.volume + 1 else ch.volume }
        else
          { ch with envelope_sweep_pace_prescaler := 0, envelope_sweep_pace_counter := 0,
                    volume := if 0 < ch.volume then ch.volume - 1 else ch.volume }
      else { ch with envelope_sweep_pace_prescaler := 0, envelope_sweep_pace_counter := ecnt }
    else { ch with envelope_sweep_pace_prescaler := esp }
  else ch

/-- `apu_ch12_tick` from apu.c, assembled from its four labelled blocks.
While the channel runs: raise its active bit in NR52, produce the output
sample, then clock period/duty, period sweep, length and envelope, and
finally turn the channel off when the volume is 0 with a decreasing
envelope.  A stopped channel outputs 0 and clears its active bit. -/
def apu_ch12_tick (ch : Ch12State) (regs : ApuRegs) (flag512 : Bool) : Ch12State × ApuRegs :=
  if ch.running then
    let regs1 := { regs with audio_master_control := regs.audio_master_control ||| ch.id }
    let ch1 := { ch with output := if ch.wave_level_high then ch.volume &&& 0x0F else 0 }
    let ch2 := apu_ch12_period_step ch1
    let cr := apu_ch12_sweep_step ch2 regs1 flag512
    let ch3 := apu_ch12_length_step cr.1 flag512
    let ch4 := apu_ch12_envelope_step ch3 flag512
    let ch5 :=
      if ch4.volume = 0 ∧ ch4.envelope_dir_increase = false then { ch4 with running := false }
      else ch4
    (ch5, cr.2)
  else
    ({ ch with output := 0 },
     { regs with audio_master_control := regs.audio_master_control &&& (ch.id ^^^ 0xFF) })

/-- A concrete pulse-channel state: running, length enabled, length timer
at 63 with its 256 Hz prescaler at 1, sweep and envelope paces 0, volume
1, increasing envelope direction.  One 512 Hz strobe fires its length
tick and turns the channel off. -/
def ch12_len63 : Ch12State where
  running := true
  id := 0x01
  wave_level_high := false
  output := 0
  dc_pattern := 0x01
  dc_pattern_bit := 0
  period := 0
  period_counter := 0
  period_prescaler := 0
  period_sweep_step := 0
  period_sweep_dir_subtract := true
  period_sweep_pace := 0
  period_sweep_pace_counter := 0
  period_sweep_pace_prescaler := 0
  length_timer := 63
  length_timer_prescaler := 1
  length_enable := true
  volume := 1
  envelope_dir_increase := true
  envelope_sweep_pace := 0
  envelope_sweep_pace_counter := 0
  envelope_sweep_pace_prescaler := 0

/-- A concrete APU register slice, all zero. -/
def apu_regs0 : ApuRegs where
  ch1_sweep := 0
  ch1_period_low := 0
  ch1_period_high_ctrl := 0
  audio_master_control := 0

/-- The CPU-side byte store standing for the bus (see the CPU section
comment). -/
def Mem : Type := Nat → Nat

/-! ## CPU (src/src/cpu.c)

The SM83 interpreter.  The `sm83_t` file-scope static (with the register
unions flattened into the eight 8-bit registers; a 16-bit pair is the
high register shifted left by 8, matching the little-endian unions) plus
the two statics of `cpu_handle_interrupt` (`isr_state`, `isr`).

The CPU touches memory only through `bus_get_memory`/`bus_set_memory`;
for the CPU-level claims the bus is modelled as a byte store indexed by
the 16-bit address - faithful for the RAM-backed regions (WRAM, HRAM)
and the plain IE/IF bytes that these claims exercise.  The cross-module
side effects of STOP (`gbc_timer_diva_reset`, `bus_stop_instr_cb`) live
in the timer/bus components and are outside this state. -/

def bus_get (m : Mem) (addr : Nat) : Nat := m (addr % 0x10000) % 0x100

def bus_set (m : Mem) (addr v : Nat) : Mem :=
  fun x => if x = addr % 0x10000 then v % 0x100 else m x

structure CpuState where
  a : Nat
  f : Nat
  b : Nat
  c : Nat
  d : Nat
  e : Nat
  h : Nat
  l : Nat
  sp : Nat
  pc : Nat
  stall_cnt : Nat
  cycle_cnt : Nat
  interrupts_enabled : Bool
  stopped : Bool
  halted : Bool
  last_addr : Nat
  last_opcode : Nat
  isr_pending : Bool
  isr : Nat

def HIGH_BYTE (x : Nat) : Nat := (x &&& 0xFF00) >>> 8

def LOW_BYTE (x : Nat) : Nat := x &&& 0x00FF

def inc16 (x : Nat) : Nat := (x + 1) % 0x10000

def dec16 (x : Nat) : Nat := (x + 0xFFFF) % 0x10000

def inc8 (x : Nat) : Nat := (x + 1) % 0x100

def dec8 (x : Nat) : Nat := (x + 0xFF) % 0x100

def add8 (x y : Nat) : Nat := (x + y) % 0x100

def sub8 (x y : Nat) : Nat := (x + 0x100 - (y % 0x100)) % 0x100

/-- Sign-extension of a byte (`(int8_t)` casts in cpu.c). -/
def sext8 (x : Nat) : Int :=
  if x % 0x100 < 0x80 then ((x % 0x100 : Nat) : Int) else ((x % 0x100 : Nat) : Int) - 0x100

/-- 16-bit wrap-around addition of a signed offset (`cpu.pc += offset + 2`
and `cpu.sp += r8` in cpu.c). -/
def addSigned16 (x : Nat) (off : Int) : Nat := (((x : Int) + off).emod 0x10000).toNat

def CpuState.AF (s : CpuState) : Nat := (s.a <<< 8) ||| s.f

def CpuState.BC (s : CpuState) : Nat := (s.b <<< 8) ||| s.c

def CpuState.DE (s : CpuState) : Nat := (s.d <<< 8) ||| s.e

def CpuState.HL (s : CpuState) : Nat := (s.h <<< 8) ||| s.l

def setAF (s : CpuState) (v : Nat) : CpuState := { s with a := HIGH_BYTE v, f := LOW_BYTE v }

def setBC (s : CpuState) (v : Nat) : CpuState := { s with b := HIGH_BYTE v, c := LOW_BYTE v }

def setDE (s : CpuState) (v : Nat) : CpuState := { s with d := HIGH_BYTE v, e := LOW_BYTE v }

def setHL (s : CpuState) (v : Nat) : CpuState := { s with h := HIGH_BYTE v, l := LOW_BYTE v }

/- The flag helpers of cpu.c, each mapping the old F byte to the new one
   (the C functions mutate `cpu.af.f` in place); `~FLAG` on a `uint8_t`
   becomes the explicit byte mask. -/

def eval_Z_flag (reg f : Nat) : Nat := if reg = 0 then f ||| 0x80 else f &&& 0x7F

def set_Z_flag (zero : Bool) (f : Nat) : Nat := if zero then f ||| 0x80 else f &&& 0x7F

def set_N_flag (subtract : Bool) (f : Nat) : Nat := if subtract then f ||| 0x40 else f &&& 0xBF

def eval_H_flag_c (target operand : Nat) (sub : Bool) (carry f : Nat) : Nat :=
  if (if sub then
        (((target &&& 0xF : Nat) : Int) - ((operand &&& 0xF : Nat) : Int) - (carry : Int) < 0)
      else ((target &&& 0xF) + (operand &&& 0xF) + carry > 0xF)) then
    f ||| 0x20
  else f &&& 0xDF

def eval_H_flag (target operand : Nat) (sub : Bool) (f : Nat) : Nat :=
  eval_H_flag_c target operand sub 0 f

def eval_H_flag_16 (target operand f : Nat) : Nat :=
  if (target &&& 0xFFF) + (operand &&& 0xFFF) > 0xFFF then f ||| 0x20 else f &&& 0xDF

def set_H_flag (hc : Bool) (f : Nat) : Nat := if hc then f ||| 0x20 else f &&& 0xDF

def eval_C_flag_c (target operand : Nat) (sub : Bool) (carry f : Nat) : Nat :=
  if (if sub then ((target : Int) - (operand : Int) - (carry : Int) < 0)
      else (target + operand + carry > 0xFF)) then
    f ||| 0x10
  else f &&& 0xEF

def eval_C_flag (target operand : Nat) (sub : Bool) (f : Nat) : Nat :=
  eval_C_flag_c target operand sub 0 f

def eval_C_flag_16 (target operand f : Nat) : Nat :=
  if target + operand > 0xFFFF then f ||| 0x10 else f &&& 0xEF

def set_C_flag (cy : Bool) (f : Nat) : Nat := if cy then f ||| 0x10 else f &&& 0xEF

/-- The `opcode_t` enumeration of cpu.c. -/
inductive OpcodeType where
  | OPC_NONE | OPC_NOP | OPC_STOP | OPC_HALT | OPC_EI | OPC_DI | OPC_DAA
  | OPC_CPL | OPC_SCF | OPC_CCF | OPC_RLCA | OPC_RLA | OPC_RRCA | OPC_RRA
  | OPC_CB | OPC_CALL | OPC_CAL2 | OPC_JRc | OPC_JR | OPC_JPc | OPC_JP
  | OPC_JPHL | OPC_RETc | OPC_RET | OPC_RETI | OPC_RST | OPC_ADD | OPC_SUB
  | OPC_AND | OPC_OR | OPC_ADD2 | OPC_SUB2 | OPC_AND2 | OPC_OR2 | OPC_ADC
  | OPC_SBC | OPC_XOR | OPC_CP | OPC_ADC2 | OPC_SBC2 | OPC_XOR2 | OPC_CP2
  | OPC_LD | OPC_LD2 | OPC_LDd8 | OPC_LDd82 | OPC_LDa2r | OPC_LDr2a
  | OPC_LDd16 | OPC_LD16s | OPC_LDHa8 | OPC_LDHA | OPC_LDCA | OPC_LDAC
  | OPC_LDHLS | OPC_LDSHL | OPC_LD16A | OPC_LDA16 | OPC_INC1 | OPC_INC2
  | OPC_INC3 | OPC_INC16 | OPC_DEC1 | OPC_DEC2 | OPC_DEC3 | OPC_DEC16
  | OPC_ADD16 | OPC_ADDSP | OPC_POP | OPC_PUSH

/-- The `opcode2_t` enumeration of cpu.c (CB-prefixed operations). -/
inductive OpcodeType2 where
  | OPC_RLC | OPC_RRC | OPC_RL | OPC_RR | OPC_SLA | OPC_SRA | OPC_SWAP
  | OPC_SRL | OPC_BIT | OPC_RES | OPC_SET | OPC_RLC2 | OPC_RRC2
  | OPC_RL2 | OPC_RR2 | OPC_SLA2 | OPC_SRA2 | OPC_SWAP2 | OPC_SRL2
  | OPC_BIT2 | OPC_RES2 | OPC_SET2

/-- The 256-entry primary dispatch table `opcode_types` of cpu.c. -/
def opcode_types_table : List OpcodeType :=
  [.OPC_NOP, .OPC_LDd16, .OPC_LDa2r, .OPC_INC16, .OPC_INC1, .OPC_DEC1, .OPC_LDd8, .OPC_RLCA, .OPC_LD16s, .OPC_ADD16, .OPC_LDr2a, .OPC_DEC16, .OPC_INC2, .OPC_DEC2, .OPC_LDd8, .OPC_RRCA] ++
  [.OPC_STOP, .OPC_LDd16, .OPC_LDa2r, .OPC_INC16, .OPC_INC1, .OPC_DEC1, .OPC_LDd8, .OPC_RLA, .OPC_JR, .OPC_ADD16, .OPC_LDr2a, .OPC_DEC16, .OPC_INC2, .OPC_DEC2, .OPC_LDd8, .OPC_RRA] ++
  [.OPC_JRc, .OPC_LDd16, .OPC_LDa2r, .OPC_INC16, .OPC_INC1, .OPC_DEC1, .OPC_LDd8, .OPC_DAA, .OPC_JRc, .OPC_ADD16, .OPC_LDr2a, .OPC_DEC16, .OPC_INC2, .OPC_DEC2, .OPC_LDd8, .OPC_CPL] ++
  [.OPC_JRc, .OPC_LDd16, .OPC_LDa2r, .OPC_INC16, .OPC_INC3, .OPC_DEC3, .OPC_LDd82, .OPC_SCF, .OPC_JRc, .OPC_ADD16, .OPC_LDr2a, .OPC_DEC16, .OPC_INC2, .OPC_DEC2, .OPC_LDd8, .OPC_CCF] ++
  [.OPC_LD, .OPC_LD, .OPC_LD, .OPC_LD, .OPC_LD, .OPC_LD, .OPC_LD, .OPC_LD, .OPC_LD, .OPC_LD, .OPC_LD, .OPC_LD, .OPC_LD, .OPC_LD, .OPC_LD, .OPC_LD] ++
  [.OPC_LD, .OPC_LD, .OPC_LD, .OPC_LD, .OPC_LD, .OPC_LD, .OPC_LD, .OPC_LD, .OPC_LD, .OPC_LD, .OPC_LD, .OPC_LD, .OPC_LD, .OPC_LD, .OPC_LD, .OPC_LD] ++
  [.OPC_LD, .OPC_LD, .OPC_LD, .OPC_LD, .OPC_LD, .OPC_LD, .OPC_LD, .OPC_LD, .OPC_LD, .OPC_LD, .OPC_LD, .OPC_LD, .OPC_LD, .OPC_LD, .OPC_LD, .OPC_LD] ++
  [.OPC_LD2, .OPC_LD2, .OPC_LD2, .OPC_LD2, .OPC_LD2, .OPC_LD2, .OPC_HALT, .OPC_LD2, .OPC_LD, .OPC_LD, .OPC_LD, .OPC_LD, .OPC_LD, .OPC_LD, .OPC_LD, .OPC_LD] ++
  [.OPC_ADD, .OPC_ADD, .OPC_ADD, .OPC_ADD, .OPC_ADD, .OPC_ADD, .OPC_ADD, .OPC_ADD, .OPC_ADC, .OPC_ADC, .OPC_ADC, .OPC_ADC, .OPC_ADC, .OPC_ADC, .OPC_ADC, .OPC_ADC] ++
  [.OPC_SUB, .OPC_SUB, .OPC_SUB, .OPC_SUB, .OPC_SUB, .OPC_SUB, .OPC_SUB, .OPC_SUB, .OPC_SBC, .OPC_SBC, .OPC_SBC, .OPC_SBC, .OPC_SBC, .OPC_SBC, .OPC_SBC, .OPC_SBC] ++
  [.OPC_AND, .OPC_AND, .OPC_AND, .OPC_AND, .OPC_AND, .OPC_AND, .OPC_AND, .OPC_AND, .OPC_XOR, .OPC_XOR, .OPC_XOR, .OPC_XOR, .OPC_XOR, .OPC_XOR, .OPC_XOR, .OPC_XOR] ++
  [.OPC_OR, .OPC_OR, .OPC_OR, .OPC_OR, .OPC_OR, .OPC_OR, .OPC_OR, .OPC_OR, .OPC_CP, .OPC_CP, .OPC_CP, .OPC_CP, .OPC_CP, .OPC_CP, .OPC_CP, .OPC_CP] ++
  [.OPC_RETc, .OPC_POP, .OPC_JPc, .OPC_JP, .OPC_CALL, .OPC_PUSH, .OPC_ADD2, .OPC_RST, .OPC_RETc, .OPC_RET, .OPC_JPc, .OPC_CB, .OPC_CALL, .OPC_CAL2, .OPC_ADC2, .OPC_RST] ++
  [.OPC_RETc, .OPC_POP, .OPC_JPc, .OPC_NONE, .OPC_CALL, .OPC_PUSH, .OPC_SUB2, .OPC_RST, .OPC_RETc, .OPC_RETI, .OPC_JPc, .OPC_NONE, .OPC_CALL, .OPC_NONE, .OPC_SBC2, .OPC_RST] ++
  [.OPC_LDHa8, .OPC_POP, .OPC_LDCA, .OPC_NONE, .OPC_NONE, .OPC_PUSH, .OPC_AND2, .OPC_RST, .OPC_ADDSP, .OPC_JPHL, .OPC_LD16A, .OPC_NONE, .OPC_NONE, .OPC_NONE, .OPC_XOR2, .OPC_RST] ++
  [.OPC_LDHA, .OPC_POP, .OPC_LDAC, .OPC_DI, .OPC_NONE, .OPC_PUSH, .OPC_OR2, .OPC_RST, .OPC_LDHLS, .OPC_LDSHL, .OPC_LDA16, .OPC_EI, .OPC_NONE, .OPC_NONE, .OPC_CP2, .OPC_RST]

def opcode_types (opcode : Nat) : OpcodeType :=
  opcode_types_table.getD opcode OpcodeType.OPC_NONE

/-- The 256-entry secondary dispatch table `opcode_types2` of cpu.c. -/
def opcode_types2_table : List OpcodeType2 :=
  [.OPC_RLC, .OPC_RLC, .OPC_RLC, .OPC_RLC, .OPC_RLC, .OPC_RLC, .OPC_RLC2, .OPC_RLC, .OPC_RRC, .OPC_RRC, .OPC_RRC, .OPC_RRC, .OPC_RRC, .OPC_RRC, .OPC_RRC2, .OPC_RRC] ++
  [.OPC_RL, .OPC_RL, .OPC_RL, .OPC_RL, .OPC_RL, .OPC_RL, .OPC_RL2, .OPC_RL, .OPC_RR, .OPC_RR, .OPC_RR, .OPC_RR, .OPC_RR, .OPC_RR, .OPC_RR2, .OPC_RR] ++
  [.OPC_SLA, .OPC_SLA, .OPC_SLA, .OPC_SLA, .OPC_SLA, .OPC_SLA, .OPC_SLA2, .OPC_SLA, .OPC_SRA, .OPC_SRA, .OPC_SRA, .OPC_SRA, .OPC_SRA, .OPC_SRA, .OPC_SRA2, .OPC_SRA] ++
  [.OPC_SWAP, .OPC_SWAP, .OPC_SWAP, .OPC_SWAP, .OPC_SWAP, .OPC_SWAP, .OPC_SWAP2, .OPC_SWAP, .OPC_SRL, .OPC_SRL, .OPC_SRL, .OPC_SRL, .OPC_SRL, .OPC_SRL, .OPC_SRL2, .OPC_SRL] ++
  [.OPC_BIT, .OPC_BIT, .OPC_BIT, .OPC_BIT, .OPC_BIT, .OPC_BIT, .OPC_BIT2, .OPC_BIT, .OPC_BIT, .OPC_BIT, .OPC_BIT, .OPC_BIT, .OPC_BIT, .OPC_BIT, .OPC_BIT2, .OPC_BIT] ++
  [.OPC_BIT, .OPC_BIT, .OPC_BIT, .OPC_BIT, .OPC_BIT, .OPC_BIT, .OPC_BIT2, .OPC_BIT, .OPC_BIT, .OPC_BIT, .OPC_BIT, .OPC_BIT, .OPC_BIT, .OPC_BIT, .OPC_BIT2, .OPC_BIT] ++
  [.OPC_BIT, .OPC_BIT, .OPC_BIT, .OPC_BIT, .OPC_BIT, .OPC_BIT, .OPC_BIT2, .OPC_BIT, .OPC_BIT, .OPC_BIT, .OPC_BIT, .OPC_BIT, .OPC_BIT, .OPC_BIT, .OPC_BIT2, .OPC_BIT] ++
  [.OPC_BIT, .OPC_BIT, .OPC_BIT, .OPC_BIT, .OPC_BIT, .OPC_BIT, .OPC_BIT2, .OPC_BIT, .OPC_BIT, .OPC_BIT, .OPC_BIT, .OPC_BIT, .OPC_BIT, .OPC_BIT, .OPC_BIT2, .OPC_BIT] ++
  [.OPC_RES, .OPC_RES, .OPC_RES, .OPC_RES, .OPC_RES, .OPC_RES, .OPC_RES2, .OPC_RES, .OPC_RES, .OPC_RES, .OPC_RES, .OPC_RES, .OPC_RES, .OPC_RES, .OPC_RES2, .OPC_RES] ++
  [.OPC_RES, .OPC_RES, .OPC_RES, .OPC_RES, .OPC_RES, .OPC_RES, .OPC_RES2, .OPC_RES, .OPC_RES, .OPC_RES, .OPC_RES, .OPC_RES, .OPC_RES, .OPC_RES, .OPC_RES2, .OPC_RES] ++
  [.OPC_RES, .OPC_RES, .OPC_RES, .OPC_RES, .OPC_RES, .OPC_RES, .OPC_RES2, .OPC_RES, .OPC_RES, .OPC_RES, .OPC_RES, .OPC_RES, .OPC_RES, .OPC_RES, .OPC_RES2, .OPC_RES] ++
  [.OPC_RES, .OPC_RES, .OPC_RES, .OPC_RES, .OPC_RES, .OPC_RES, .OPC_RES2, .OPC_RES, .OPC_RES, .OPC_RES, .OPC_RES, .OPC_RES, .OPC_RES, .OPC_RES, .OPC_RES2, .OPC_RES] ++
  [.OPC_SET, .OPC_SET, .OPC_SET, .OPC_SET, .OPC_SET, .OPC_SET, .OPC_SET2, .OPC_SET, .OPC_SET, .OPC_SET, .OPC_SET, .OPC_SET, .OPC_SET, .OPC_SET, .OPC_SET2, .OPC_SET] ++
  [.OPC_SET, .OPC_SET, .OPC_SET, .OPC_SET, .OPC_SET, .OPC_SET, .OPC_SET2, .OPC_SET, .OPC_SET, .OPC_SET, .OPC_SET, .OPC_SET, .OPC_SET, .OPC_SET, .OPC_SET2, .OPC_SET] ++
  [.OPC_SET, .OPC_SET, .OPC_SET, .OPC_SET, .OPC_SET, .OPC_SET, .OPC_SET2, .OPC_SET, .OPC_SET, .OPC_SET, .OPC_SET, .OPC_SET, .OPC_SET, .OPC_SET, .OPC_SET2, .OPC_SET] ++
  [.OPC_SET, .OPC_SET, .OPC_SET, .OPC_SET, .OPC_SET, .OPC_SET, .OPC_SET2, .OPC_SET, .OPC_SET, .OPC_SET, .OPC_SET, .OPC_SET, .OPC_SET, .OPC_SET, .OPC_SET2, .OPC_SET]

def opcode_types2 (opcode : Nat) : OpcodeType2 :=
  opcode_types2_table.getD opcode OpcodeType2.OPC_RLC

/-- `target_lut` of the CB handler and `src_lut`/`operand_lut` of the
8-bit operations in cpu.c: register selection by the low three opcode
bits ({B, C, D, E, H, L, -, A}; index 6 is the in-memory (HL) cell,
whose slot holds 0 in the operand tables and NULL in the pointer
tables - the dispatch never reaches it for register variants). -/
def getR8 (s : CpuState) (i : Nat) : Nat :=
  match i with
  | 0 => s.b
  | 1 => s.c
  | 2 => s.d
  | 3 => s.e
  | 4 => s.h
  | 5 => s.l
  | 6 => 0
  | _ => s.a

/-- Write-back through the register pointer tables of cpu.c (index 6,
the NULL slot, is unreachable for the opcodes that use this). -/
def setR8 (s : CpuState) (i v : Nat) : CpuState :=
  match i with
  | 0 => { s with b := v }
  | 1 => { s with c := v }
  | 2 => { s with d := v }
  | 3 => { s with e := v }
  | 4 => { s with h := v }
  | 5 => { s with l := v }
  | 6 => s
  | _ => { s with a := v }

/- The 22 CB-prefixed operation bodies of cpu.c (register variants take
   the register index, `(HL)` variants access memory at HL). -/

def cb_RLC (s : CpuState) (m : Mem) (idx : Nat) : CpuState × Mem :=
  let t := getR8 s idx
  let bit7 := t &&& 0x80 ≠ 0
  let r := ((t <<< 1) ||| (if bit7 then 1 else 0)) % 0x100
  ({ setR8 s idx r with
      f := set_C_flag bit7 (set_H_flag false (set_N_flag false (eval_Z_flag r s.f))) }, m)

def cb_RRC (s : CpuState) (m : Mem) (idx : Nat) : CpuState × Mem :=
  let t := getR8 s idx
  let bit0 := t &&& 0x01 ≠ 0
  let r := ((t >>> 1) ||| (if bit0 then 0x80 else 0)) % 0x100
  ({ setR8 s idx r with
      f := set_C_flag bit0 (set_H_flag false (set_N_flag false (eval_Z_flag r s.f))) }, m)

def cb_RL (s : CpuState) (m : Mem) (idx : Nat) : CpuState × Mem :=
  let t := getR8 s idx
  let bit7 := t &&& 0x80 ≠ 0
  let cy := s.f &&& 0x10 ≠ 0
  let r := ((t <<< 1) ||| (if cy then 1 else 0)) % 0x100
  ({ setR8 s idx r with
      f := set_C_flag bit7 (set_H_flag false (set_N_flag false (eval_Z_flag r s.f))) }, m)

def cb_RR (s : CpuState) (m : Mem) (idx : Nat) : CpuState × Mem :=
  let t := getR8 s idx
  let bit0 := t &&& 0x01 ≠ 0
  let cy := s.f &&& 0x10 ≠ 0
  let r := ((t >>> 1) ||| (if cy then 0x80 else 0)) % 0x100
  ({ setR8 s idx r with
      f := set_C_flag bit0 (set_H_flag false (set_N_flag false (eval_Z_flag r s.f))) }, m)

def cb_SLA (s : CpuState) (m : Mem) (idx : Nat) : CpuState × Mem :=
  let t := getR8 s idx
  let bit7 := t &&& 0x80 ≠ 0
  let r := (t <<< 1) % 0x100
  ({ setR8 s idx r with
      f := set_C_flag bit7 (set_H_flag false (set_N_flag false (eval_Z_flag r s.f))) }, m)

def cb_SRA (s : CpuState) (m : Mem) (idx : Nat) : CpuState × Mem :=
  let t := getR8 s idx
  let bit0 := t &&& 0x01 ≠ 0
  let bit7 := t &&& 0x80 ≠ 0
  let r := ((t >>> 1) ||| (if bit7 then 0x80 else 0)) % 0x100
  ({ setR8 s idx r with
      f := set_C_flag bit0 (set_H_flag false (set_N_flag false (eval_Z_flag r s.f))) }, m)

def cb_SWAP (s : CpuState) (m : Mem) (idx : Nat) : CpuState × Mem :=
  let t := getR8 s idx
  let r := ((t &&& 0x0F) <<< 4) ||| ((t &&& 0xF0) >>> 4)
  ({ setR8 s idx r with
      f := set_C_flag false (set_H_flag false (set_N_flag false (eval_Z_flag r s.f))) }, m)

def cb_SRL (s : CpuState) (m : Mem) (idx : Nat) : CpuState × Mem :=
  let t := getR8 s idx
  let bit0 := t &&& 0x01 ≠ 0
  let r := (t >>> 1) % 0x100
  ({ setR8 s idx r with
      f := set_C_flag bit0 (set_H_flag false (set_N_flag false (eval_Z_flag r s.f))) }, m)

def cb_BIT (s : CpuState) (m : Mem) (idx bit : Nat) : CpuState × Mem :=
  let t := getR8 s idx
  ({ s with f := set_H_flag true (set_N_flag false (eval_Z_flag (t &&& (1 <<< bit)) s.f)) }, m)

def cb_RES (s : CpuState) (m : Mem) (idx bit : Nat) : CpuState × Mem :=
  let t := getR8 s idx
  (setR8 s idx (t &&& ((1 <<< bit) ^^^ 0xFF)), m)

def cb_SET (s : CpuState) (m : Mem) (idx bit : Nat) : CpuState × Mem :=
  let t := getR8 s idx
  (setR8 s idx ((t ||| (1 <<< bit)) % 0x100), m)

def cb_RLC2 (s : CpuState) (m : Mem) : CpuState × Mem :=
  let t := bus_get m s.HL
  let bit7 := t &&& 0x80 ≠ 0
  let r := ((t <<< 1) ||| (if bit7 then 1 else 0)) % 0x100
  ({ s with f := set_C_flag bit7 (set_H_flag false (set_N_flag false (eval_Z_flag r s.f))) },
   bus_set m s.HL r)

def cb_RRC2 (s : CpuState) (m : Mem) : CpuState × Mem :=
  let t := bus_get m s.HL
  let bit0 := t &&& 0x01 ≠ 0
  let r := ((t >>> 1) ||| (if bit0 then 0x80 else 0)) % 0x100
  ({ s with f := set_C_flag bit0 (set_H_flag false (set_N_flag false (eval_Z_flag r s.f))) },
   bus_set m s.HL r)

def cb_RL2 (s : CpuState) (m : Mem) : CpuState × Mem :=
  let t := bus_get m s.HL
  let bit7 := t &&& 0x80 ≠ 0
  let cy := s.f &&& 0x10 ≠ 0
  let r := ((t <<< 1) ||| (if cy then 1 else 0)) % 0x100
  ({ s with f := set_C_flag bit7 (set_H_flag false (set_N_flag false (eval_Z_flag r s.f))) },
   bus_set m s.HL r)

def cb_RR2 (s : CpuState) (m : Mem) : CpuState × Mem :=
  let t := bus_get m s.HL
  let bit0 := t &&& 0x01 ≠ 0
  let cy := s.f &&& 0x10 ≠ 0
  let r := ((t >>> 1) ||| (if cy then 0x80 else 0)) % 0x100
  ({ s with f := set_C_flag bit0 (set_H_flag false (set_N_flag false (eval_Z_flag r s.f))) },
   bus_set m s.HL r)

def cb_SLA2 (s : CpuState) (m : Mem) : CpuState × Mem :=
  let t := bus_get m s.HL
  let bit7 := t &&& 0x80 ≠ 0
  let r := (t <<< 1) % 0x100
  ({ s with f := set_C_flag bit7 (set_H_flag false (set_N_flag false (eval_Z_flag r s.f))) },
   bus_set m s.HL r)

def cb_SRA2 (s : CpuState) (m : Mem) : CpuState × Mem :=
  let t := bus_get m s.HL
  let bit0 := t &&& 0x01 ≠ 0
  let bit7 := t &&& 0x80 ≠ 0
  let r := ((t >>> 1) ||| (if bit7 then 0x80 else 0)) % 0x100
  ({ s with f := set_C_flag bit0 (set_H_flag false (set_N_flag false (eval_Z_flag r s.f))) },
   bus_set m s.HL r)

def cb_SWAP2 (s : CpuState) (m : Mem) : CpuState × Mem :=
  let t := bus_get m s.HL
  let r := ((t &&& 0x0F) <<< 4) ||| ((t &&& 0xF0) >>> 4)
  ({ s with f := set_C_flag false (set_H_flag false (set_N_flag false (eval_Z_flag r s.f))) },
   bus_set m s.HL r)

def cb_SRL2 (s : CpuState) (m : Mem) : CpuState × Mem :=
  let t := bus_get m s.HL
  let bit0 := t &&& 0x01 ≠ 0
  let r := (t >>> 1) % 0x100
  ({ s with f := set_C_flag bit0 (set_H_flag false (set_N_flag false (eval_Z_flag r s.f))) },
   bus_set m s.HL r)

def cb_BIT2 (s : CpuState) (m : Mem) (bit : Nat) : CpuState × Mem :=
  let t := bus_get m s.HL
  ({ s with f := set_H_flag true (set_N_flag false (eval_Z_flag (t &&& (1 <<< bit)) s.f)) }, m)

def cb_RES2 (s : CpuState) (m : Mem) (bit : Nat) : CpuState × Mem :=
  let t := bus_get m s.HL
  (s, bus_set m s.HL (t &&& ((1 <<< bit) ^^^ 0xFF)))

def cb_SET2 (s : CpuState) (m : Mem) (bit : Nat) : CpuState × Mem :=
  let t := bus_get m s.HL
  (s, bus_set m s.HL ((t ||| (1 <<< bit)) % 0x100))

/-- The `OPC_CB` case of `cpu_handle_opcode`: fetch the second opcode,
compute the duration from its bit pattern (12 for BIT (HL), 16 for the
read-modify-write (HL) forms, 8 otherwise), dispatch through
`opcode_types2`, then advance PC by 2. -/
def exec_CB (s : CpuState) (m : Mem) : CpuState × Mem × Nat :=
  let opcode2 := bus_get m (s.pc + 1)
  let idx := opcode2 &&& 0x07
  let bit := (opcode2 &&& 0x38) >>> 3
  let duration := if opcode2 &&& 0xC7 = 0x46 then 12
                  else if opcode2 &&& 0x07 = 0x06 then 16
                  else 8
  let r :=
    match opcode_types2 opcode2 with
    | .OPC_RLC => cb_RLC s m idx
    | .OPC_RRC => cb_RRC s m idx
    | .OPC_RL => cb_RL s m idx
    | .OPC_RR => cb_RR s m idx
    | .OPC_SLA => cb_SLA s m idx
    | .OPC_SRA => cb_SRA s m idx
    | .OPC_SWAP => cb_SWAP s m idx
    | .OPC_SRL => cb_SRL s m idx
    | .OPC_BIT => cb_BIT s m idx bit
    | .OPC_RES => cb_RES s m idx bit
    | .OPC_SET => cb_SET s m idx bit
    | .OPC_RLC2 => cb_RLC2 s m
    | .OPC_RRC2 => cb_RRC2 s m
    | .OPC_RL2 => cb_RL2 s m
    | .OPC_RR2 => cb_RR2 s m
    | .OPC_SLA2 => cb_SLA2 s m
    | .OPC_SRA2 => cb_SRA2 s m
    | .OPC_SWAP2 => cb_SWAP2 s m
    | .OPC_SRL2 => cb_SRL2 s m
    | .OPC_BIT2 => cb_BIT2 s m bit
    | .OPC_RES2 => cb_RES2 s m bit
    | .OPC_SET2 => cb_SET2 s m bit
  ({ r.1 with pc := (r.1.pc + 2) % 0x10000 }, r.2, duration)

/-- Condition selector `cond_lut` used by CALL/JR/JP/RET cc in cpu.c:
{NZ, Z, NC, C}. -/
def cond_lut (f cond : Nat) : Bool :=
  match cond with
  | 0 => f &&& 0x80 = 0
  | 1 => f &&& 0x80 ≠ 0
  | 2 => f &&& 0x10 = 0
  | 3 => f &&& 0x10 ≠ 0
  | _ => false

def exec_NOP (s : CpuState) (m : Mem) : CpuState × Mem × Nat :=
  ({ s with pc := (s.pc + 1) % 0x10000 }, m, 4)

/-- STOP: the calls into the timer (`gbc_timer_diva_reset`) and the bus
(`bus_stop_instr_cb`) act on those components' state and are outside the
CPU state/byte-store pair. -/
def exec_STOP (s : CpuState) (m : Mem) : CpuState × Mem × Nat :=
  ({ s with stopped := true, pc := (s.pc + 2) % 0x10000 }, m, 4)

def exec_HALT (s : CpuState) (m : Mem) : CpuState × Mem × Nat :=
  ({ s with pc := (s.pc + 1) % 0x10000, halted := true }, m, 4)

def exec_EI (s : CpuState) (m : Mem) : CpuState × Mem × Nat :=
  ({ s with interrupts_enabled := true, pc := (s.pc + 1) % 0x10000 }, m, 4)

def exec_DI (s : CpuState) (m : Mem) : CpuState × Mem × Nat :=
  ({ s with interrupts_enabled := false, pc := (s.pc + 1) % 0x10000 }, m, 4)

def exec_DAA (s : CpuState) (m : Mem) : CpuState × Mem × Nat :=
  let N := s.f &&& 0x40 ≠ 0
  let C := s.f &&& 0x10 ≠ 0
  let H := s.f &&& 0x20 ≠ 0
  let a1 := if ¬N then (if C ∨ s.a > 0x99 then add8 s.a 0x60 else s.a)
            else (if C then sub8 s.a 0x60 else s.a)
  let new_C := if ¬N ∧ (C ∨ s.a > 0x99) then true else C
  let a2 := if ¬N then (if H ∨ (a1 &&& 0x0F) > 0x09 then add8 a1 0x06 else a1)
            else (if H then sub8 a1 0x06 else a1)
  ({ s with a := a2,
            f := eval_Z_flag a2 (set_H_flag false (set_C_flag new_C s.f)),
            pc := (s.pc + 1) % 0x10000 }, m, 4)

def exec_CPL (s : CpuState) (m : Mem) : CpuState × Mem × Nat :=
  ({ s with f := set_H_flag true (set_N_flag true s.f),
            a := s.a ^^^ 0xFF,
            pc := (s.pc + 1) % 0x10000 }, m, 4)

def exec_SCF (s : CpuState) (m : Mem) : CpuState × Mem × Nat :=
  ({ s with f := set_C_flag true (set_H_flag false (set_N_flag false s.f)),
            pc := (s.pc + 1) % 0x10000 }, m, 4)

/-- CCF in cpu.c reads `cpu.af.f & FLAG_C` after the N/H clears (which do
not touch bit 4), so the complemented carry is taken from the
intermediate F value. -/
def exec_CCF (s : CpuState) (m : Mem) : CpuState × Mem × Nat :=
  let f1 := set_H_flag false (set_N_flag false s.f)
  ({ s with f := set_C_flag (f1 &&& 0x10 = 0) f1, pc := (s.pc + 1) % 0x10000 }, m, 4)

def exec_RLCA (s : CpuState) (m : Mem) : CpuState × Mem × Nat :=
  let bit7 := s.a &&& 0x80 ≠ 0
  ({ s with a := ((s.a <<< 1) ||| (if bit7 then 1 else 0)) % 0x100,
            f := set_C_flag bit7 (set_H_flag false (set_N_flag false (set_Z_flag false s.f))),
            pc := (s.pc + 1) % 0x10000 }, m, 4)

def exec_RLA (s : CpuState) (m : Mem) : CpuState × Mem × Nat :=
  let bit7 := s.a &&& 0x80 ≠ 0
  let cy := s.f &&& 0x10 ≠ 0
  ({ s with a := ((s.a <<< 1) ||| (if cy then 1 else 0)) % 0x100,
            f := set_C_flag bit7 (set_H_flag false (set_N_flag false (set_Z_flag false s.f))),
            pc := (s.pc + 1) % 0x10000 }, m, 4)

def exec_RRCA (s : CpuState) (m : Mem) : CpuState × Mem × Nat :=
  let bit0 := s.a &&& 0x01 ≠ 0
  ({ s with a := ((s.a %0x100) >>> 1) ||| (if bit0 then 0x80 else 0),
            f := set_C_flag bit0 (set_H_flag false (set_N_flag false (set_Z_flag false s.f))),
            pc := (s.pc + 1) % 0x10000 }, m, 4)

def exec_RRA (s : CpuState) (m : Mem) : CpuState × Mem × Nat :=
  let bit0 := s.a &&& 0x01 ≠ 0
  let cy := s.f &&& 0x10 ≠ 0
  ({ s with a := ((s.a %0x100) >>> 1) ||| (if cy then 0x80 else 0),
            f := set_C_flag bit0 (set_H_flag false (set_N_flag false (set_Z_flag false s.f))),
            pc := (s.pc + 1) % 0x10000 }, m, 4)

def exec_CALL (s : CpuState) (m : Mem) (opcode : Nat) : CpuState × Mem × Nat :=
  if cond_lut s.f ((opcode &&& 0x38) >>> 3) then
    let next_pc := (s.pc + 3) % 0x10000
    let lo := bus_get m (s.pc + 1)
    let hi := bus_get m (s.pc + 2)
    let sp1 := dec16 s.sp
    let m1 := bus_set m sp1 (HIGH_BYTE next_pc)
    let sp2 := dec16 sp1
    let m2 := bus_set m1 sp2 (LOW_BYTE next_pc)
    ({ s with sp := sp2, pc := (hi <<< 8) ||| lo }, m2, 24)
  else
    ({ s with pc := (s.pc + 3) % 0x10000 }, m, 12)

def exec_CAL2 (s : CpuState) (m : Mem) : CpuState × Mem × Nat :=
  let next_pc := (s.pc + 3) % 0x10000
  let lo := bus_get m (s.pc + 1)
  let hi := bus_get m (s.pc + 2)
  let sp1 := dec16 s.sp
  let m1 := bus_set m sp1 (HIGH_BYTE next_pc)
  let sp2 := dec16 sp1
  let m2 := bus_set m1 sp2 (LOW_BYTE next_pc)
  ({ s with sp := sp2, pc := (hi <<< 8) ||| lo }, m2, 24)

def exec_JRc (s : CpuState) (m : Mem) (opcode : Nat) : CpuState × Mem × Nat :=
  if cond_lut s.f (((opcode &&& 0x38) >>> 3) - 4) then
    ({ s with pc := addSigned16 s.pc (sext8 (bus_get m (s.pc + 1)) + 2) }, m, 12)
  else
    ({ s with pc := (s.pc + 2) % 0x10000 }, m, 8)

def exec_JR (s : CpuState) (m : Mem) : CpuState × Mem × Nat :=
  ({ s with pc := addSigned16 s.pc (sext8 (bus_get m (s.pc + 1)) + 2) }, m, 12)

def exec_JPc (s : CpuState) (m : Mem) (opcode : Nat) : CpuState × Mem × Nat :=
  if cond_lut s.f ((opcode &&& 0x38) >>> 3) then
    ({ s with pc := ((bus_get m (s.pc + 2)) <<< 8) ||| bus_get m (s.pc + 1) }, m, 16)
  else
    ({ s with pc := (s.pc + 3) % 0x10000 }, m, 12)

def exec_JP (s : CpuState) (m : Mem) : CpuState × Mem × Nat :=
  ({ s with pc := ((bus_get m (s.pc + 2)) <<< 8) ||| bus_get m (s.pc + 1) }, m, 16)

def exec_JPHL (s : CpuState) (m : Mem) : CpuState × Mem × Nat :=
  ({ s with pc := s.HL }, m, 4)

def exec_RETc (s : CpuState) (m : Mem) (opcode : Nat) : CpuState × Mem × Nat :=
  if cond_lut s.f ((opcode &&& 0x38) >>> 3) then
    let lo := bus_get m s.sp
    let hi := bus_get m (inc16 s.sp)
    ({ s with sp := inc16 (inc16 s.sp), pc := (hi <<< 8) ||| lo }, m, 20)
  else
    ({ s with pc := (s.pc + 1) % 0x10000 }, m, 8)

def exec_RET (s : CpuState) (m : Mem) : CpuState × Mem × Nat :=
  let lo := bus_get m s.sp
  let hi := bus_get m (inc16 s.sp)
  ({ s with sp := inc16 (inc16 s.sp), pc := (hi <<< 8) ||| lo }, m, 16)

/-- RETI: `cpu.interrupts_enabled = true` then falls through into the RET
body. -/
def exec_RETI (s : CpuState) (m : Mem) : CpuState × Mem × Nat :=
  exec_RET { s with interrupts_enabled := true } m

def exec_RST (s : CpuState) (m : Mem) (opcode : Nat) : CpuState × Mem × Nat :=
  let offset := [0x00, 0x08, 0x10, 0x18, 0x20, 0x28, 0x30, 0x38].getD ((opcode &&& 0x38) >>> 3) 0
  let sp1 := dec16 s.sp
  let m1 := bus_set m sp1 (((s.pc + 1) &&& 0xFF00) >>> 8)
  let sp2 := dec16 sp1
  let m2 := bus_set m1 sp2 ((s.pc + 1) &&& 0x00FF)
  ({ s with sp := sp2, pc := offset }, m2, 16)

def exec_PUSH (s : CpuState) (m : Mem) (opcode : Nat) : CpuState × Mem × Nat :=
  let src :=
    match (opcode &&& 0x30) >>> 4 with
    | 0 => s.BC
    | 1 => s.DE
    | 2 => s.HL
    | _ => s.AF
  let sp1 := dec16 s.sp
  let m1 := bus_set m sp1 (HIGH_BYTE src)
  let sp2 := dec16 sp1
  let m2 := bus_set m1 sp2 (LOW_BYTE src)
  ({ s with sp := sp2, pc := (s.pc + 1) % 0x10000 }, m2, 16)

/-- POP: the low byte is masked with 0xF0 only when the destination pair
is AF (`dst == &cpu.af.af` in cpu.c); BC/DE/HL receive the raw byte. -/
def exec_POP (s : CpuState) (m : Mem) (opcode : Nat) : CpuState × Mem × Nat :=
  let r := (opcode &&& 0x30) >>> 4
  let lo := bus_get m s.sp &&& (if r = 3 then 0xF0 else 0xFF)
  let hi := bus_get m (inc16 s.sp)
  let v := (hi <<< 8) ||| lo
  let s1 :=
    match r with
    | 0 => setBC s v
    | 1 => setDE s v
    | 2 => setHL s v
    | 3 => setAF s v
    | _ => s
  ({ s1 with sp := inc16 (inc16 s.sp), pc := (s.pc + 1) % 0x10000 }, m, 12)

def exec_ADD (s : CpuState) (m : Mem) (opcode : Nat) : CpuState × Mem × Nat :=
  let i := opcode &&& 0x07
  let operand := if i = 6 then bus_get m s.HL else getR8 s i
  let result := add8 s.a operand
  ({ s with a := result,
            f := eval_C_flag s.a operand false
                   (eval_H_flag s.a operand false (set_N_flag false (eval_Z_flag result s.f))),
            pc := (s.pc + 1) % 0x10000 }, m, if i = 6 then 8 else 4)

def exec_SUB (s : CpuState) (m : Mem) (opcode : Nat) : CpuState × Mem × Nat :=
  let i := opcode &&& 0x07
  let operand := if i = 6 then bus_get m s.HL else getR8 s i
  let result := sub8 s.a operand
  ({ s with a := result,
            f := eval_C_flag s.a operand true
                   (eval_H_flag s.a operand true (set_N_flag true (eval_Z_flag result s.f))),
            pc := (s.pc + 1) % 0x10000 }, m, if i = 6 then 8 else 4)

def exec_AND (s : CpuState) (m : Mem) (opcode : Nat) : CpuState × Mem × Nat :=
  let i := opcode &&& 0x07
  let operand := if i = 6 then bus_get m s.HL else getR8 s i
  let result := s.a &&& operand
  ({ s with a := result,
            f := set_C_flag false (set_H_flag true (set_N_flag false (eval_Z_flag result s.f))),
            pc := (s.pc + 1) % 0x10000 }, m, if i = 6 then 8 else 4)

def exec_OR (s : CpuState) (m : Mem) (opcode : Nat) : CpuState × Mem × Nat :=
  let i := opcode &&& 0x07
  let operand := if i = 6 then bus_get m s.HL else getR8 s i
  let result := (s.a ||| operand) % 0x100
  ({ s with a := result,
            f := set_C_flag false (set_H_flag false (set_N_flag false (eval_Z_flag result s.f))),
            pc := (s.pc + 1) % 0x10000 }, m, if i = 6 then 8 else 4)

def exec_ADC (s : CpuState) (m : Mem) (opcode : Nat) : CpuState × Mem × Nat :=
  let i := opcode &&& 0x07
  let operand := if i = 6 then bus_get m s.HL else getR8 s i
  let cy := if s.f &&& 0x10 ≠ 0 then 1 else 0
  let result := (s.a + operand + cy) % 0x100
  ({ s with a := result,
            f := eval_C_flag_c s.a operand false cy
                   (eval_H_flag_c s.a operand false cy (set_N_flag false (eval_Z_flag result s.f))),
            pc := (s.pc + 1) % 0x10000 }, m, if i = 6 then 8 else 4)

def exec_SBC (s : CpuState) (m : Mem) (opcode : Nat) : CpuState × Mem × Nat :=
  let i := opcode &&& 0x07
  let operand := if i = 6 then bus_get m s.HL else getR8 s i
  let cy := if s.f &&& 0x10 ≠ 0 then 1 else 0
  let result := sub8 (sub8 s.a operand) cy
  ({ s with a := result,
            f := eval_C_flag_c s.a operand true cy
                   (eval_H_flag_c s.a operand true cy (set_N_flag true (eval_Z_flag result s.f))),
            pc := (s.pc + 1) % 0x10000 }, m, if i = 6 then 8 else 4)

def exec_XOR (s : CpuState) (m : Mem) (opcode : Nat) : CpuState × Mem × Nat :=
  let i := opcode &&& 0x07
  let operand := if i = 6 then bus_get m s.HL else getR8 s i
  let result := (s.a ^^^ operand) % 0x100
  ({ s with a := result,
            f := set_C_flag false (set_H_flag false (set_N_flag false (eval_Z_flag result s.f))),
            pc := (s.pc + 1) % 0x10000 }, m, if i = 6 then 8 else 4)

/-- CP in cpu.c evaluates the H and C flags twice (lines 1186-1189); the
duplicate applications are kept. -/
def exec_CP (s : CpuState) (m : Mem) (opcode : Nat) : CpuState × Mem × Nat :=
  let i := opcode &&& 0x07
  let operand := if i = 6 then bus_get m s.HL else getR8 s i
  let result := sub8 s.a operand
  ({ s with f := eval_C_flag s.a operand true (eval_H_flag s.a operand true
                   (eval_C_flag s.a operand true (eval_H_flag s.a operand true
                     (set_N_flag true (eval_Z_flag result s.f))))),
            pc := (s.pc + 1) % 0x10000 }, m, if i = 6 then 8 else 4)

def exec_ADD2 (s : CpuState) (m : Mem) : CpuState × Mem × Nat :=
  let operand := bus_get m (s.pc + 1)
  let a1 := add8 s.a operand
  ({ s with a := a1,
            f := eval_Z_flag a1 (set_N_flag false
                   (eval_H_flag s.a operand false (eval_C_flag s.a operand false s.f))),
            pc := (s.pc + 2) % 0x10000 }, m, 8)

def exec_SUB2 (s : CpuState) (m : Mem) : CpuState × Mem × Nat :=
  let operand := bus_get m (s.pc + 1)
  let a1 := sub8 s.a operand
  ({ s with a := a1,
            f := eval_Z_flag a1 (set_N_flag true
                   (eval_H_flag s.a operand true (eval_C_flag s.a operand true s.f))),
            pc := (s.pc + 2) % 0x10000 }, m, 8)

def exec_AND2 (s : CpuState) (m : Mem) : CpuState × Mem × Nat :=
  let operand := bus_get m (s.pc + 1)
  let a1 := s.a &&& operand
  ({ s with a := a1,
            f := eval_Z_flag a1 (set_N_flag false (set_H_flag true (set_C_flag false s.f))),
            pc := (s.pc + 2) % 0x10000 }, m, 8)

def exec_OR2 (s : CpuState) (m : Mem) : CpuState × Mem × Nat :=
  let operand := bus_get m (s.pc + 1)
  let a1 := (s.a ||| operand) % 0x100
  ({ s with a := a1,
            f := eval_Z_flag a1 (set_N_flag false (set_H_flag false (set_C_flag false s.f))),
            pc := (s.pc + 2) % 0x10000 }, m, 8)

def exec_ADC2 (s : CpuState) (m : Mem) : CpuState × Mem × Nat :=
  let operand := bus_get m (s.pc + 1)
  let cy := if s.f &&& 0x10 ≠ 0 then 1 else 0
  let a1 := (s.a + operand + cy) % 0x100
  ({ s with a := a1,
            f := eval_Z_flag a1 (set_N_flag false
                   (eval_H_flag_c s.a operand false cy (eval_C_flag_c s.a operand false cy s.f))),
            pc := (s.pc + 2) % 0x10000 }, m, 8)

def exec_SBC2 (s : CpuState) (m : Mem) : CpuState × Mem × Nat :=
  let operand := bus_get m (s.pc + 1)
  let cy := if s.f &&& 0x10 ≠ 0 then 1 else 0
  let a1 := sub8 s.a (operand + cy)
  ({ s with a := a1,
            f := eval_Z_flag a1 (set_N_flag true
                   (eval_H_flag_c s.a operand true cy (eval_C_flag_c s.a operand true cy s.f))),
            pc := (s.pc + 2) % 0x10000 }, m, 8)

def exec_XOR2 (s : CpuState) (m : Mem) : CpuState × Mem × Nat :=
  let operand := bus_get m (s.pc + 1)
  let a1 := (s.a ^^^ operand) % 0x100
  ({ s with a := a1,
            f := eval_Z_flag a1 (set_N_flag false (set_H_flag false (set_C_flag false s.f))),
            pc := (s.pc + 2) % 0x10000 }, m, 8)

def exec_CP2 (s : CpuState) (m : Mem) : CpuState × Mem × Nat :=
  let operand := bus_get m (s.pc + 1)
  ({ s with f := eval_Z_flag (sub8 s.a operand) (set_N_flag true
                   (eval_H_flag s.a operand true (eval_C_flag s.a operand true s.f))),
            pc := (s.pc + 2) % 0x10000 }, m, 8)

def exec_LD (s : CpuState) (m : Mem) (opcode : Nat) : CpuState × Mem × Nat :=
  let r0 := (opcode &&& 0x38) >>> 3
  let r1 := opcode &&& 0x07
  let src := if r1 = 6 then bus_get m s.HL else getR8 s r1
  ({ setR8 s r0 src with pc := (s.pc + 1) % 0x10000 }, m,
   if r0 = 6 ∨ r1 = 6 then 8 else 4)

def exec_LD2 (s : CpuState) (m : Mem) (opcode : Nat) : CpuState × Mem × Nat :=
  ({ s with pc := (s.pc + 1) % 0x10000 }, bus_set m s.HL (getR8 s (opcode &&& 0x07)), 8)

def exec_LDd8 (s : CpuState) (m : Mem) (opcode : Nat) : CpuState × Mem × Nat :=
  let data := bus_get m (s.pc + 1)
  ({ setR8 s ((opcode &&& 0x38) >>> 3) data with pc := (s.pc + 2) % 0x10000 }, m, 8)

def exec_LDd82 (s : CpuState) (m : Mem) : CpuState × Mem × Nat :=
  let data := bus_get m (s.pc + 1)
  ({ s with pc := (s.pc + 2) % 0x10000 }, bus_set m s.HL data, 12)

def exec_LDa2r (s : CpuState) (m : Mem) (opcode : Nat) : CpuState × Mem × Nat :=
  let r :=
    match (opcode &&& 0x30) >>> 4 with
    | 0 => (s, bus_set m s.BC s.a)
    | 1 => (s, bus_set m s.DE s.a)
    | 2 => (setHL s (inc16 s.HL), bus_set m s.HL s.a)
    | _ => (setHL s (dec16 s.HL), bus_set m s.HL s.a)
  ({ r.1 with pc := (r.1.pc + 1) % 0x10000 }, r.2, 8)

def exec_LDr2a (s : CpuState) (m : Mem) (opcode : Nat) : CpuState × Mem × Nat :=
  let r :=
    match (opcode &&& 0x30) >>> 4 with
    | 0 => (s, bus_get m s.BC)
    | 1 => (s, bus_get m s.DE)
    | 2 => (setHL s (inc16 s.HL), bus_get m s.HL)
    | _ => (setHL s (dec16 s.HL), bus_get m s.HL)
  ({ r.1 with a := r.2, pc := (r.1.pc + 1) % 0x10000 }, m, 8)

def exec_LDd16 (s : CpuState) (m : Mem) (opcode : Nat) : CpuState × Mem × Nat :=
  let d16 := ((bus_get m (s.pc + 2)) <<< 8) ||| bus_get m (s.pc + 1)
  let s1 :=
    match (opcode &&& 0x30) >>> 4 with
    | 0 => setBC s d16
    | 1 => setDE s d16
    | 2 => setHL s d16
    | _ => { s with sp := d16 }
  ({ s1 with pc := (s1.pc + 3) % 0x10000 }, m, 12)

def exec_LD16s (s : CpuState) (m : Mem) : CpuState × Mem × Nat :=
  let addr := ((bus_get m (s.pc + 2)) <<< 8) ||| bus_get m (s.pc + 1)
  let m1 := bus_set m (addr + 0) (LOW_BYTE s.sp)
  let m2 := bus_set m1 (addr + 1) (HIGH_BYTE s.sp)
  ({ s with pc := (s.pc + 3) % 0x10000 }, m2, 20)

def exec_LDHa8 (s : CpuState) (m : Mem) : CpuState × Mem × Nat :=
  let a8 := bus_get m (s.pc + 1)
  ({ s with pc := (s.pc + 2) % 0x10000 }, bus_set m (0xFF00 + a8) s.a, 12)

def exec_LDHA (s : CpuState) (m : Mem) : CpuState × Mem × Nat :=
  let a8 := bus_get m (s.pc + 1)
  ({ s with a := bus_get m (0xFF00 + a8), pc := (s.pc + 2) % 0x10000 }, m, 12)

def exec_LDCA (s : CpuState) (m : Mem) : CpuState × Mem × Nat :=
  ({ s with pc := (s.pc + 1) % 0x10000 }, bus_set m (0xFF00 + s.c) s.a, 8)

def exec_LDAC (s : CpuState) (m : Mem) : CpuState × Mem × Nat :=
  ({ s with a := bus_get m (0xFF00 + s.c), pc := (s.pc + 1) % 0x10000 }, m, 8)

def exec_INC1 (s : CpuState) (m : Mem) (opcode : Nat) : CpuState × Mem × Nat :=
  let r :=
    match (opcode &&& 0x30) >>> 4 with
    | 0 => ({ s with b := inc8 s.b }, inc8 s.b, s.b)
    | 1 => ({ s with d := inc8 s.d }, inc8 s.d, s.d)
    | 2 => ({ s with h := inc8 s.h }, inc8 s.h, s.h)
    | _ => (s, 1, 0)
  ({ r.1 with f := eval_Z_flag r.2.1 (set_N_flag false (eval_H_flag r.2.2 1 false s.f)),
              pc := (r.1.pc + 1) % 0x10000 }, m, 4)

def exec_INC2 (s : CpuState) (m : Mem) (opcode : Nat) : CpuState × Mem × Nat :=
  let r :=
    match (opcode &&& 0x30) >>> 4 with
    | 0 => ({ s with c := inc8 s.c }, inc8 s.c, s.c)
    | 1 => ({ s with e := inc8 s.e }, inc8 s.e, s.e)
    | 2 => ({ s with l := inc8 s.l }, inc8 s.l, s.l)
    | _ => ({ s with a := inc8 s.a }, inc8 s.a, s.a)
  ({ r.1 with f := eval_Z_flag r.2.1 (set_N_flag false (eval_H_flag r.2.2 1 false s.f)),
              pc := (r.1.pc + 1) % 0x10000 }, m, 4)

def exec_INC3 (s : CpuState) (m : Mem) : CpuState × Mem × Nat :=
  let v := bus_get m s.HL
  ({ s with f := eval_Z_flag (inc8 v) (set_N_flag false (eval_H_flag v 1 false s.f)),
            pc := (s.pc + 1) % 0x10000 }, bus_set m s.HL (v + 1), 12)

def exec_INC16 (s : CpuState) (m : Mem) (opcode : Nat) : CpuState × Mem × Nat :=
  let s1 :=
    match (opcode &&& 0x30) >>> 4 with
    | 0 => setBC s (inc16 s.BC)
    | 1 => setDE s (inc16 s.DE)
    | 2 => setHL s (inc16 s.HL)
    | _ => { s with sp := inc16 s.sp }
  ({ s1 with pc := (s1.pc + 1) % 0x10000 }, m, 8)

def exec_DEC1 (s : CpuState) (m : Mem) (opcode : Nat) : CpuState × Mem × Nat :=
  let r :=
    match (opcode &&& 0x30) >>> 4 with
    | 0 => ({ s with b := dec8 s.b }, dec8 s.b, s.b)
    | 1 => ({ s with d := dec8 s.d }, dec8 s.d, s.d)
    | 2 => ({ s with h := dec8 s.h }, dec8 s.h, s.h)
    | _ => (s, 1, 0)
  ({ r.1 with f := eval_Z_flag r.2.1 (set_N_flag true (eval_H_flag r.2.2 1 true s.f)),
              pc := (r.1.pc + 1) % 0x10000 }, m, 4)

def exec_DEC2 (s : CpuState) (m : Mem) (opcode : Nat) : CpuState × Mem × Nat :=
  let r :=
    match (opcode &&& 0x30) >>> 4 with
    | 0 => ({ s with c := dec8 s.c }, dec8 s.c, s.c)
    | 1 => ({ s with e := dec8 s.e }, dec8 s.e, s.e)
    | 2 => ({ s with l := dec8 s.l }, dec8 s.l, s.l)
    | _ => ({ s with a := dec8 s.a }, dec8 s.a, s.a)
  ({ r.1 with f := eval_Z_flag r.2.1 (set_N_flag true (eval_H_flag r.2.2 1 true s.f)),
              pc := (r.1.pc + 1) % 0x10000 }, m, 4)

def exec_DEC3 (s : CpuState) (m : Mem) : CpuState × Mem × Nat :=
  let v := bus_get m s.HL
  ({ s with f := eval_Z_flag (dec8 v) (set_N_flag true (eval_H_flag v 1 true s.f)),
            pc := (s.pc + 1) % 0x10000 }, bus_set m s.HL (v + 0xFF), 12)

def exec_DEC16 (s : CpuState) (m : Mem) (opcode : Nat) : CpuState × Mem × Nat :=
  let s1 :=
    match (opcode &&& 0x30) >>> 4 with
    | 0 => setBC s (dec16 s.BC)
    | 1 => setDE s (dec16 s.DE)
    | 2 => setHL s (dec16 s.HL)
    | _ => { s with sp := dec16 s.sp }
  ({ s1 with pc := (s1.pc + 1) % 0x10000 }, m, 8)

def exec_ADD16 (s : CpuState) (m : Mem) (opcode : Nat) : CpuState × Mem × Nat :=
  let operand :=
    match (opcode &&& 0x30) >>> 4 with
    | 0 => s.BC
    | 1 => s.DE
    | 2 => s.HL
    | _ => s.sp
  let s1 := setHL s ((s.HL + operand) % 0x10000)
  ({ s1 with f := eval_C_flag_16 s.HL operand (eval_H_flag_16 s.HL operand (set_N_flag false s.f)),
             pc := (s1.pc + 1) % 0x10000 }, m, 8)

/-- ADD SP,e: the H/C helpers receive `cpu.sp` through their `uint8_t`
parameter, i.e. the low byte of SP, and the raw offset byte. -/
def exec_ADDSP (s : CpuState) (m : Mem) : CpuState × Mem × Nat :=
  let r8 := bus_get m (s.pc + 1)
  ({ s with sp := addSigned16 s.sp (sext8 r8),
            f := eval_C_flag (s.sp &&& 0xFF) r8 false
                   (eval_H_flag (s.sp &&& 0xFF) r8 false (set_N_flag false (set_Z_flag false s.f))),
            pc := (s.pc + 2) % 0x10000 }, m, 16)

def exec_LDHLS (s : CpuState) (m : Mem) : CpuState × Mem × Nat :=
  let r8 := bus_get m (s.pc + 1)
  let s1 := setHL s (addSigned16 s.sp (sext8 r8))
  ({ s1 with f := eval_C_flag (s.sp &&& 0xFF) r8 false
               (eval_H_flag (s.sp &&& 0xFF) r8 false (set_N_flag false (set_Z_flag false s.f))),
             pc := (s1.pc + 2) % 0x10000 }, m, 12)

def exec_LDSHL (s : CpuState) (m : Mem) : CpuState × Mem × Nat :=
  ({ s with sp := s.HL, pc := (s.pc + 1) % 0x10000 }, m, 8)

def exec_LD16A (s : CpuState) (m : Mem) : CpuState × Mem × Nat :=
  let a16 := ((bus_get m (s.pc + 2)) <<< 8) ||| bus_get m (s.pc + 1)
  ({ s with pc := (s.pc + 3) % 0x10000 }, bus_set m a16 s.a, 16)

def exec_LDA16 (s : CpuState) (m : Mem) : CpuState × Mem × Nat :=
  let a16 := ((bus_get m (s.pc + 2)) <<< 8) ||| bus_get m (s.pc + 1)
  ({ s with a := bus_get m a16, pc := (s.pc + 3) % 0x10000 }, m, 16)

/-- The switch of `cpu_handle_opcode` (cpu.c), dispatching on
`opcode_types[opcode]`.  `OPC_NONE` (undefined opcodes) only logs: the
state is unchanged and the cycle count stays 0. -/
def cpu_handle_opcode_aux (s : CpuState) (m : Mem) (opcode : Nat) : CpuState × Mem × Nat :=
  match opcode_types opcode with
  | .OPC_NONE => (s, m, 0)
  | .OPC_NOP => exec_NOP s m
  | .OPC_STOP => exec_STOP s m
  | .OPC_HALT => exec_HALT s m
  | .OPC_EI => exec_EI s m
  | .OPC_DI => exec_DI s m
  | .OPC_DAA => exec_DAA s m
  | .OPC_CPL => exec_CPL s m
  | .OPC_SCF => exec_SCF s m
  | .OPC_CCF => exec_CCF s m
  | .OPC_RLCA => exec_RLCA s m
  | .OPC_RLA => exec_RLA s m
  | .OPC_RRCA => exec_RRCA s m
  | .OPC_RRA => exec_RRA s m
  | .OPC_CB => exec_CB s m
  | .OPC_CALL => exec_CALL s m opcode
  | .OPC_CAL2 => exec_CAL2 s m
  | .OPC_JRc => exec_JRc s m opcode
  | .OPC_JR => exec_JR s m
  | .OPC_JPc => exec_JPc s m opcode
  | .OPC_JP => exec_JP s m
  | .OPC_JPHL => exec_JPHL s m
  | .OPC_RETc => exec_RETc s m opcode
  | .OPC_RET => exec_RET s m
  | .OPC_RETI => exec_RETI s m
  | .OPC_RST => exec_RST s m opcode
  | .OPC_ADD => exec_ADD s m opcode
  | .OPC_SUB => exec_SUB s m opcode
  | .OPC_AND => exec_AND s m opcode
  | .OPC_OR => exec_OR s m opcode
  | .OPC_ADD2 => exec_ADD2 s m
  | .OPC_SUB2 => exec_SUB2 s m
  | .OPC_AND2 => exec_AND2 s m
  | .OPC_OR2 => exec_OR2 s m
  | .OPC_ADC => exec_ADC s m opcode
  | .OPC_SBC => exec_SBC s m opcode
  | .OPC_XOR => exec_XOR s m opcode
  | .OPC_CP => exec_CP s m opcode
  | .OPC_ADC2 => exec_ADC2 s m
  | .OPC_SBC2 => exec_SBC2 s m
  | .OPC_XOR2 => exec_XOR2 s m
  | .OPC_CP2 => exec_CP2 s m
  | .OPC_LD => exec_LD s m opcode
  | .OPC_LD2 => exec_LD2 s m opcode
  | .OPC_LDd8 => exec_LDd8 s m opcode
  | .OPC_LDd82 => exec_LDd82 s m
  | .OPC_LDa2r => exec_LDa2r s m opcode
  | .OPC_LDr2a => exec_LDr2a s m opcode
  | .OPC_LDd16 => exec_LDd16 s m opcode
  | .OPC_LD16s => exec_LD16s s m
  | .OPC_LDHa8 => exec_LDHa8 s m
  | .OPC_LDHA => exec_LDHA s m
  | .OPC_LDCA => exec_LDCA s m
  | .OPC_LDAC => exec_LDAC s m
  | .OPC_LDHLS => exec_LDHLS s m
  | .OPC_LDSHL => exec_LDSHL s m
  | .OPC_LD16A => exec_LD16A s m
  | .OPC_LDA16 => exec_LDA16 s m
  | .OPC_INC1 => exec_INC1 s m opcode
  | .OPC_INC2 => exec_INC2 s m opcode
  | .OPC_INC3 => exec_INC3 s m
  | .OPC_INC16 => exec_INC16 s m opcode
  | .OPC_DEC1 => exec_DEC1 s m opcode
  | .OPC_DEC2 => exec_DEC2 s m opcode
  | .OPC_DEC3 => exec_DEC3 s m
  | .OPC_DEC16 => exec_DEC16 s m opcode
  | .OPC_ADD16 => exec_ADD16 s m opcode
  | .OPC_ADDSP => exec_ADDSP s m
  | .OPC_POP => exec_POP s m opcode
  | .OPC_PUSH => exec_PUSH s m opcode

/-- `cpu_handle_opcode` from cpu.c: fetch the opcode at PC, record
`last_addr`/`last_opcode`, dispatch. -/
def cpu_handle_opcode (s : CpuState) (m : Mem) : CpuState × Mem × Nat :=
  cpu_handle_opcode_aux { s with last_addr := s.pc, last_opcode := bus_get m s.pc } m
    (bus_get m s.pc)

/-- `cpu_handle_interrupt` from cpu.c, with its two function statics
(`isr_state`, `isr`) carried in the CPU state (`isr_pending` true is the
`isr_state_setup_pc_e` state).  In the idle state the latched `isr` is
re-assigned on every call; a pending IE&IF wakes HALT regardless of IME
and, when IME is set, moves to the setup state for 2 cycles; the setup
state pushes PC, jumps to the vector of the lowest pending latched bit,
clears that IF bit and IME, and costs 3 cycles. -/
def cpu_handle_interrupt (s : CpuState) (m : Mem) : CpuState × Mem × Nat :=
  if s.isr_pending then
    let IFv := bus_get m 0xFF0F
    let sp1 := dec16 s.sp
    let m1 := bus_set m sp1 (HIGH_BYTE s.pc)
    let sp2 := dec16 sp1
    let m2 := bus_set m1 sp2 (LOW_BYTE s.pc)
    let vect_if :=
      if s.isr &&& 0x01 ≠ 0 then (0x0040, IFv &&& 0xFE)
      else if s.isr &&& 0x02 ≠ 0 then (0x0048, IFv &&& 0xFD)
      else if s.isr &&& 0x04 ≠ 0 then (0x0050, IFv &&& 0xFB)
      else if s.isr &&& 0x08 ≠ 0 then (0x0058, IFv &&& 0xF7)
      else (0x0060, IFv &&& 0xEF)
    let m3 := bus_set m2 0xFF0F vect_if.2
    ({ s with sp := sp2, pc := vect_if.1, interrupts_enabled := false, isr_pending := false },
     m3, 3)
  else
    let IE := bus_get m 0xFFFF
    let IFv := bus_get m 0xFF0F
    let isr := IE &&& IFv
    if isr ≠ 0 then
      if s.interrupts_enabled then
        ({ s with isr := isr, halted := false, isr_pending := true }, m, 2)
      else
        ({ s with isr := isr, halted := false }, m, 0)
    else
      ({ s with isr := isr }, m, 0)

/-- `gbc_cpu_tick` from cpu.c: consume a pending stall, otherwise poll
the interrupt machine, otherwise execute an opcode (or idle for 1 cycle
while halted); the cycle count is accumulated. -/
def gbc_cpu_tick (s : CpuState) (m : Mem) : CpuState × Mem × Nat :=
  let c0 := s.stall_cnt
  let s0 := { s with stall_cnt := 0 }
  let r1 := if c0 = 0 then cpu_handle_interrupt s0 m else (s0, m, c0)
  let r2 := if r1.2.2 = 0 then
              (if ¬r1.1.halted then cpu_handle_opcode r1.1 r1.2.1 else (r1.1, r1.2.1, 1))
            else r1
  ({ r2.1 with cycle_cnt := r2.1.cycle_cnt + r2.2.2 }, r2.2.1, r2.2.2)

/-- `gbc_cpu_init` from cpu.c: zeroed state, then A = 0x11 (CGB
identity), PC = 0x0100, SP = 0xFFFE. -/
def cpu_init : CpuState where
  a := 0x11
  f := 0
  b := 0
  c := 0
  d := 0
  e := 0
  h := 0
  l := 0
  sp := 0xFFFE
  pc := 0x0100
  stall_cnt := 0
  cycle_cnt := 0
  interrupts_enabled := false
  stopped := false
  halted := false
  last_addr := 0
  last_opcode := 0
  isr_pending := false
  isr := 0

/-- Program memory for the EI scenario: EI at 0x0100, NOP at 0x0101,
DI at 0x0102, IE = 0x01 (VBlank enabled) and IF = 0x01 (VBlank pending),
zero elsewhere. -/
def mem_ei : Mem := fun a =>
  if a = 0x0100 then 0xFB
  else if a = 0x0101 then 0x00
  else if a = 0x0102 then 0xF3
  else if a = 0xFFFF then 0x01
  else if a = 0xFF0F then 0x01
  else 0

/-- Program memory for the PUSH AF / POP sequence: PUSH AF at 0x0100,
POP BC at 0x0101, zero elsewhere. -/
def mem_pushpop : Mem := fun a =>
  if a = 0x0100 then 0xF5
  else if a = 0x0101 then 0xC1
  else 0

/-- Program memory for PUSH AF / POP AF: PUSH AF at 0x0100, POP AF at
0x0101, zero elsewhere. -/
def mem_pushpopaf : Mem := fun a =>
  if a = 0x0100 then 0xF5
  else if a = 0x0101 then 0xF1
  else 0

/-- CPU state at the boundary scenario of the spec: AF = 0x1234 (A =
0x12, F = 0x34), SP = 0xFFFE, PC = 0x0100. -/
def cpu_af1234 : CpuState :=
  { cpu_init with a := 0x12, f := 0x34 }

/- The three scheduler ticks of the EI scenario and the two instruction
   steps of the PUSH/POP scenarios, as concrete runs of the embedding. -/

def ei_tick1 : CpuState × Mem × Nat := gbc_cpu_tick cpu_init mem_ei

def ei_tick2 : CpuState × Mem × Nat := gbc_cpu_tick ei_tick1.1 ei_tick1.2.1

def ei_tick3 : CpuState × Mem × Nat := gbc_cpu_tick ei_tick2.1 ei_tick2.2.1

def pushpop_step1 : CpuState × Mem × Nat := cpu_handle_opcode cpu_af1234 mem_pushpop

def pushpop_step2 : CpuState × Mem × Nat := cpu_handle_opcode pushpop_step1.1 pushpop_step1.2.1

def pushpopaf_step1 : CpuState × Mem × Nat := cpu_handle_opcode cpu_af1234 mem_pushpopaf

def pushpopaf_step2 : CpuState × Mem × Nat :=
  cpu_handle_opcode pushpopaf_step1.1 pushpopaf_step1.2.1


end Gbc

namespace Gbc

/- Auxiliary facts about the low nibble of a byte under the bitmask
   operations that the CPU flag helpers use. -/

theorem lor_mod16 (x m : Nat) (hm : m % 16 = 0) : (x ||| m) % 16 = x % 16 := by
  have h16 : (16 : Nat) = 2 ^ 4 := by norm_num
  rw [h16] at hm ⊢
  apply Nat.eq_of_testBit_eq
  intro i
  simp only [Nat.testBit_mod_two_pow, Nat.testBit_or]
  by_cases hi : i < 4
  · have h0 := Nat.testBit_mod_two_pow m 4 i
    rw [hm] at h0
    simp only [Nat.zero_testBit, hi, decide_True, Bool.true_and] at h0
    simp [hi, ← h0]
  · simp [hi]

theorem land_mod16_full (x m : Nat) (hm : m % 16 = 15) : (x &&& m) % 16 = x % 16 := by
  have h16 : (16 : Nat) = 2 ^ 4 := by norm_num
  rw [h16] at hm ⊢
  apply Nat.eq_of_testBit_eq
  intro i
  simp only [Nat.testBit_mod_two_pow, Nat.testBit_and]
  by_cases hi : i < 4
  · have h0 := Nat.testBit_mod_two_pow m 4 i
    rw [hm] at h0
    have h15 : (15 : Nat) = 2 ^ 4 - 1 := by norm_num
    rw [h15, Nat.testBit_two_pow_sub_one] at h0
    simp only [hi, decide_True, Bool.true_and] at h0
    simp [hi, ← h0]
  · simp [hi]

theorem land_mod16_zero (x m : Nat) (hm : m % 16 = 0) : (x &&& m) % 16 = 0 := by
  have h16 : (16 : Nat) = 2 ^ 4 := by norm_num
  rw [h16] at hm ⊢
  have h : ∀ i, ((x &&& m) % 2 ^ 4).testBit i = Nat.testBit 0 i := by
    intro i
    simp only [Nat.testBit_mod_two_pow, Nat.testBit_and, Nat.zero_testBit]
    by_cases hi : i < 4
    · have h0 := Nat.testBit_mod_two_pow m 4 i
      rw [hm] at h0
      simp only [Nat.zero_testBit, hi, decide_True, Bool.true_and] at h0
      simp [hi, ← h0]
    · simp [hi]
  exact Nat.eq_of_testBit_eq h

theorem bus_write_mbc5_rom_banks (S : SystemState) (addr v : Nat) :
    (bus_write_mbc5 S addr v).rom = S.rom ∧
    (bus_write_mbc5 S addr v).cartridge_type = S.cartridge_type := by
  unfold bus_write_mbc5
  split_ifs <;> exact ⟨rfl, rfl⟩

theorem bus_write_mbc_rom_banks (S : SystemState) (addr v : Nat) :
    (bus_write_mbc S addr v).rom = S.rom ∧
    (bus_write_mbc S addr v).cartridge_type = S.cartridge_type := by
  unfold bus_write_mbc
  split
  · exact bus_write_mbc5_rom_banks S addr v
  · exact ⟨rfl, rfl⟩


/- Low-nibble preservation of the flag helpers: each one only sets or
   clears one of the bits 4-7 of F. -/

@[simp] theorem eval_Z_flag_mod16 (r f : Nat) : eval_Z_flag r f % 16 = f % 16 := by
  unfold eval_Z_flag
  split
  · exact lor_mod16 f 0x80 (by decide)
  · exact land_mod16_full f 0x7F (by decide)

@[simp] theorem set_Z_flag_mod16 (z : Bool) (f : Nat) : set_Z_flag z f % 16 = f % 16 := by
  unfold set_Z_flag
  split
  · exact lor_mod16 f 0x80 (by decide)
  · exact land_mod16_full f 0x7F (by decide)

@[simp] theorem set_N_flag_mod16 (n : Bool) (f : Nat) : set_N_flag n f % 16 = f % 16 := by
  unfold set_N_flag
  split
  · exact lor_mod16 f 0x40 (by decide)
  · exact land_mod16_full f 0xBF (by decide)

@[simp] theorem eval_H_flag_c_mod16 (t o : Nat) (sub : Bool) (cy f : Nat) :
    eval_H_flag_c t o sub cy f % 16 = f % 16 := by
  unfold eval_H_flag_c
  split_ifs
  all_goals first
    | exact lor_mod16 _ 0x20 (by decide)
    | exact land_mod16_full _ 0xDF (by decide)

@[simp] theorem eval_H_flag_mod16 (t o : Nat) (sub : Bool) (f : Nat) :
    eval_H_flag t o sub f % 16 = f % 16 := by
  unfold eval_H_flag
  exact eval_H_flag_c_mod16 t o sub 0 f

@[simp] theorem eval_H_flag_16_mod16 (t o f : Nat) : eval_H_flag_16 t o f % 16 = f % 16 := by
  unfold eval_H_flag_16
  split
  · exact lor_mod16 f 0x20 (by decide)
  · exact land_mod16_full f 0xDF (by decide)

@[simp] theorem set_H_flag_mod16 (hc : Bool) (f : Nat) : set_H_flag hc f % 16 = f % 16 := by
  unfold set_H_flag
  split
  · exact lor_mod16 f 0x20 (by decide)
  · exact land_mod16_full f 0xDF (by decide)

@[simp] theorem eval_C_flag_c_mod16 (t o : Nat) (sub : Bool) (cy f : Nat) :
    eval_C_flag_c t o sub cy f % 16 = f % 16 := by
  unfold eval_C_flag_c
  split_ifs
  all_goals first
    | exact lor_mod16 _ 0x10 (by decide)
    | exact land_mod16_full _ 0xEF (by decide)

@[simp] theorem eval_C_flag_mod16 (t o : Nat) (sub : Bool) (f : Nat) :
    eval_C_flag t o sub f % 16 = f % 16 := by
  unfold eval_C_flag
  exact eval_C_flag_c_mod16 t o sub 0 f

@[simp] theorem eval_C_flag_16_mod16 (t o f : Nat) : eval_C_flag_16 t o f % 16 = f % 16 := by
  unfold eval_C_flag_16
  split
  · exact lor_mod16 f 0x10 (by decide)
  · exact land_mod16_full f 0xEF (by decide)

@[simp] theorem set_C_flag_mod16 (cy : Bool) (f : Nat) : set_C_flag cy f % 16 = f % 16 := by
  unfold set_C_flag
  split
  · exact lor_mod16 f 0x10 (by decide)
  · exact land_mod16_full f 0xEF (by decide)

@[simp] theorem setR8_f (s : CpuState) (i v : Nat) : (setR8 s i v).f = s.f := by
  unfold setR8
  split <;> rfl

@[simp] theorem setBC_f (s : CpuState) (v : Nat) : (setBC s v).f = s.f := rfl

@[simp] theorem setDE_f (s : CpuState) (v : Nat) : (setDE s v).f = s.f := rfl

@[simp] theorem setHL_f (s : CpuState) (v : Nat) : (setHL s v).f = s.f := rfl

/-- The byte POP AF stores into F: the raw stack byte masked to its high
nibble, merged into the 16-bit pair and projected back - its low nibble
is 0. -/
theorem pop_af_f_low (x y : Nat) : LOW_BYTE ((x <<< 8) ||| (y &&& 0xF0)) % 16 = 0 := by
  unfold LOW_BYTE
  rw [land_mod16_full _ 0xFF (by decide), lor_mod16 _ _ (land_mod16_zero y 0xF0 (by decide))]
  rw [Nat.shiftLeft_eq]
  omega


/- Low-nibble preservation of F through every opcode handler.  The proofs
   split all branches of each handler body and discharge each leaf with
   the flag-helper lemmas above. -/

theorem exec_NOP_f_low (s : CpuState) (m : Mem) (h : s.f % 16 = 0) :
    (exec_NOP s m).1.f % 16 = 0 := by
  unfold exec_NOP
  all_goals simp [h, pop_af_f_low]

theorem exec_STOP_f_low (s : CpuState) (m : Mem) (h : s.f % 16 = 0) :
    (exec_STOP s m).1.f % 16 = 0 := by
  unfold exec_STOP
  all_goals simp [h, pop_af_f_low]

theorem exec_HALT_f_low (s : CpuState) (m : Mem) (h : s.f % 16 = 0) :
    (exec_HALT s m).1.f % 16 = 0 := by
  unfold exec_HALT
  all_goals simp [h, pop_af_f_low]

theorem exec_EI_f_low (s : CpuState) (m : Mem) (h : s.f % 16 = 0) :
    (exec_EI s m).1.f % 16 = 0 := by
  unfold exec_EI
  all_goals simp [h, pop_af_f_low]

theorem exec_DI_f_low (s : CpuState) (m : Mem) (h : s.f % 16 = 0) :
    (exec_DI s m).1.f % 16 = 0 := by
  unfold exec_DI
  all_goals simp [h, pop_af_f_low]

theorem exec_DAA_f_low (s : CpuState) (m : Mem) (h : s.f % 16 = 0) :
    (exec_DAA s m).1.f % 16 = 0 := by
  unfold exec_DAA
  all_goals simp [h, pop_af_f_low]

theorem exec_CPL_f_low (s : CpuState) (m : Mem) (h : s.f % 16 = 0) :
    (exec_CPL s m).1.f % 16 = 0 := by
  unfold exec_CPL
  all_goals simp [h, pop_af_f_low]

theorem exec_SCF_f_low (s : CpuState) (m : Mem) (h : s.f % 16 = 0) :
    (exec_SCF s m).1.f % 16 = 0 := by
  unfold exec_SCF
  all_goals simp [h, pop_af_f_low]

theorem exec_CCF_f_low (s : CpuState) (m : Mem) (h : s.f % 16 = 0) :
    (exec_CCF s m).1.f % 16 = 0 := by
  unfold exec_CCF
  all_goals simp [h, pop_af_f_low]

theorem exec_RLCA_f_low (s : CpuState) (m : Mem) (h : s.f % 16 = 0) :
    (exec_RLCA s m).1.f % 16 = 0 := by
  unfold exec_RLCA
  all_goals simp [h, pop_af_f_low]

theorem exec_RLA_f_low (s : CpuState) (m : Mem) (h : s.f % 16 = 0) :
    (exec_RLA s m).1.f % 16 = 0 := by
  unfold exec_RLA
  all_goals simp [h, pop_af_f_low]

theorem exec_RRCA_f_low (s : CpuState) (m : Mem) (h : s.f % 16 = 0) :
    (exec_RRCA s m).1.f % 16 = 0 := by
  unfold exec_RRCA
  all_goals simp [h, pop_af_f_low]

theorem exec_RRA_f_low (s : CpuState) (m : Mem) (h : s.f % 16 = 0) :
    (exec_RRA s m).1.f % 16 = 0 := by
  unfold exec_RRA
  all_goals simp [h, pop_af_f_low]

theorem exec_CALL_f_low (s : CpuState) (m : Mem) (opcode : Nat) (h : s.f % 16 = 0) :
    (exec_CALL s m opcode).1.f % 16 = 0 := by
  unfold exec_CALL
  repeat' split
  all_goals simp [h, pop_af_f_low]

theorem exec_CAL2_f_low (s : CpuState) (m : Mem) (h : s.f % 16 = 0) :
    (exec_CAL2 s m).1.f % 16 = 0 := by
  unfold exec_CAL2
  all_goals simp [h, pop_af_f_low]

theorem exec_JRc_f_low (s : CpuState) (m : Mem) (opcode : Nat) (h : s.f % 16 = 0) :
    (exec_JRc s m opcode).1.f % 16 = 0 := by
  unfold exec_JRc
  repeat' split
  all_goals simp [h, pop_af_f_low]

theorem exec_JR_f_low (s : CpuState) (m : Mem) (h : s.f % 16 = 0) :
    (exec_JR s m).1.f % 16 = 0 := by
  unfold exec_JR
  all_goals simp [h, pop_af_f_low]

theorem exec_JPc_f_low (s : CpuState) (m : Mem) (opcode : Nat) (h : s.f % 16 = 0) :
    (exec_JPc s m opcode).1.f % 16 = 0 := by
  unfold exec_JPc
  repeat' split
  all_goals simp [h, pop_af_f_low]

theorem exec_JP_f_low (s : CpuState) (m : Mem) (h : s.f % 16 = 0) :
    (exec_JP s m).1.f % 16 = 0 := by
  unfold exec_JP
  all_goals simp [h, pop_af_f_low]

theorem exec_JPHL_f_low (s : CpuState) (m : Mem) (h : s.f % 16 = 0) :
    (exec_JPHL s m).1.f % 16 = 0 := by
  unfold exec_JPHL
  all_goals simp [h, pop_af_f_low]

theorem exec_RETc_f_low (s : CpuState) (m : Mem) (opcode : Nat) (h : s.f % 16 = 0) :
    (exec_RETc s m opcode).1.f % 16 = 0 := by
  unfold exec_RETc
  repeat' split
  all_goals simp [h, pop_af_f_low]

theorem exec_RET_f_low (s : CpuState) (m : Mem) (h : s.f % 16 = 0) :
    (exec_RET s m).1.f % 16 = 0 := by
  unfold exec_RET
  all_goals simp [h, pop_af_f_low]

theorem exec_RST_f_low (s : CpuState) (m : Mem) (opcode : Nat) (h : s.f % 16 = 0) :
    (exec_RST s m opcode).1.f % 16 = 0 := by
  unfold exec_RST
  all_goals simp [h, pop_af_f_low]

theorem exec_PUSH_f_low (s : CpuState) (m : Mem) (opcode : Nat) (h : s.f % 16 = 0) :
    (exec_PUSH s m opcode).1.f % 16 = 0 := by
  unfold exec_PUSH
  repeat' split
  all_goals simp [h, pop_af_f_low]

theorem setAF_f (s : CpuState) (v : Nat) : (setAF s v).f = LOW_BYTE v := rfl

theorem exec_POP_f_low (s : CpuState) (m : Mem) (opcode : Nat) (h : s.f % 16 = 0) :
    (exec_POP s m opcode).1.f % 16 = 0 := by
  unfold exec_POP
  dsimp only
  split <;> simp_all [setAF_f, pop_af_f_low]

theorem exec_ADD_f_low (s : CpuState) (m : Mem) (opcode : Nat) (h : s.f % 16 = 0) :
    (exec_ADD s m opcode).1.f % 16 = 0 := by
  unfold exec_ADD
  all_goals simp [h, pop_af_f_low]

theorem exec_SUB_f_low (s : CpuState) (m : Mem) (opcode : Nat) (h : s.f % 16 = 0) :
    (exec_SUB s m opcode).1.f % 16 = 0 := by
  unfold exec_SUB
  all_goals simp [h, pop_af_f_low]

theorem exec_AND_f_low (s : CpuState) (m : Mem) (opcode : Nat) (h : s.f % 16 = 0) :
    (exec_AND s m opcode).1.f % 16 = 0 := by
  unfold exec_AND
  all_goals simp [h, pop_af_f_low]

theorem exec_OR_f_low (s : CpuState) (m : Mem) (opcode : Nat) (h : s.f % 16 = 0) :
    (exec_OR s m opcode).1.f % 16 = 0 := by
  unfold exec_OR
  all_goals simp [h, pop_af_f_low]

theorem exec_ADC_f_low (s : CpuState) (m : Mem) (opcode : Nat) (h : s.f % 16 = 0) :
    (exec_ADC s m opcode).1.f % 16 = 0 := by
  unfold exec_ADC
  repeat' split
  all_goals simp [h, pop_af_f_low]

theorem exec_SBC_f_low (s : CpuState) (m : Mem) (opcode : Nat) (h : s.f % 16 = 0) :
    (exec_SBC s m opcode).1.f % 16 = 0 := by
  unfold exec_SBC
  repeat' split
  all_goals simp [h, pop_af_f_low]

theorem exec_XOR_f_low (s : CpuState) (m : Mem) (opcode : Nat) (h : s.f % 16 = 0) :
    (exec_XOR s m opcode).1.f % 16 = 0 := by
  unfold exec_XOR
  all_goals simp [h, pop_af_f_low]

theorem exec_CP_f_low (s : CpuState) (m : Mem) (opcode : Nat) (h : s.f % 16 = 0) :
    (exec_CP s m opcode).1.f % 16 = 0 := by
  unfold exec_CP
  all_goals simp [h, pop_af_f_low]

theorem exec_ADD2_f_low (s : CpuState) (m : Mem) (h : s.f % 16 = 0) :
    (exec_ADD2 s m).1.f % 16 = 0 := by
  unfold exec_ADD2
  all_goals simp [h, pop_af_f_low]

theorem exec_SUB2_f_low (s : CpuState) (m : Mem) (h : s.f % 16 = 0) :
    (exec_SUB2 s m).1.f % 16 = 0 := by
  unfold exec_SUB2
  all_goals simp [h, pop_af_f_low]

theorem exec_AND2_f_low (s : CpuState) (m : Mem) (h : s.f % 16 = 0) :
    (exec_AND2 s m).1.f % 16 = 0 := by
  unfold exec_AND2
  all_goals simp [h, pop_af_f_low]

theorem exec_OR2_f_low (s : CpuState) (m : Mem) (h : s.f % 16 = 0) :
    (exec_OR2 s m).1.f % 16 = 0 := by
  unfold exec_OR2
  all_goals simp [h, pop_af_f_low]

theorem exec_ADC2_f_low (s : CpuState) (m : Mem) (h : s.f % 16 = 0) :
    (exec_ADC2 s m).1.f % 16 = 0 := by
  unfold exec_ADC2
  repeat' split
  all_goals simp [h, pop_af_f_low]

theorem exec_SBC2_f_low (s : CpuState) (m : Mem) (h : s.f % 16 = 0) :
    (exec_SBC2 s m).1.f % 16 = 0 := by
  unfold exec_SBC2
  repeat' split
  all_goals simp [h, pop_af_f_low]

theorem exec_XOR2_f_low (s : CpuState) (m : Mem) (h : s.f % 16 = 0) :
    (exec_XOR2 s m).1.f % 16 = 0 := by
  unfold exec_XOR2
  all_goals simp [h, pop_af_f_low]

theorem exec_CP2_f_low (s : CpuState) (m : Mem) (h : s.f % 16 = 0) :
    (exec_CP2 s m).1.f % 16 = 0 := by
  unfold exec_CP2
  all_goals simp [h, pop_af_f_low]

theorem exec_LD_f_low (s : CpuState) (m : Mem) (opcode : Nat) (h : s.f % 16 = 0) :
    (exec_LD s m opcode).1.f % 16 = 0 := by
  unfold exec_LD
  all_goals simp [h, pop_af_f_low]

theorem exec_LD2_f_low (s : CpuState) (m : Mem) (opcode : Nat) (h : s.f % 16 = 0) :
    (exec_LD2 s m opcode).1.f % 16 = 0 := by
  unfold exec_LD2
  all_goals simp [h, pop_af_f_low]

theorem exec_LDd8_f_low (s : CpuState) (m : Mem) (opcode : Nat) (h : s.f % 16 = 0) :
    (exec_LDd8 s m opcode).1.f % 16 = 0 := by
  unfold exec_LDd8
  all_goals simp [h, pop_af_f_low]

theorem exec_LDd82_f_low (s : CpuState) (m : Mem) (h : s.f % 16 = 0) :
    (exec_LDd82 s m).1.f % 16 = 0 := by
  unfold exec_LDd82
  all_goals simp [h, pop_af_f_low]

theorem exec_LDa2r_f_low (s : CpuState) (m : Mem) (opcode : Nat) (h : s.f % 16 = 0) :
    (exec_LDa2r s m opcode).1.f % 16 = 0 := by
  unfold exec_LDa2r
  repeat' split
  all_goals simp [h, pop_af_f_low]

theorem exec_LDr2a_f_low (s : CpuState) (m : Mem) (opcode : Nat) (h : s.f % 16 = 0) :
    (exec_LDr2a s m opcode).1.f % 16 = 0 := by
  unfold exec_LDr2a
  repeat' split
  all_goals simp [h, pop_af_f_low]

theorem exec_LDd16_f_low (s : CpuState) (m : Mem) (opcode : Nat) (h : s.f % 16 = 0) :
    (exec_LDd16 s m opcode).1.f % 16 = 0 := by
  unfold exec_LDd16
  repeat' split
  all_goals simp [h, pop_af_f_low]

theorem exec_LD16s_f_low (s : CpuState) (m : Mem) (h : s.f % 16 = 0) :
    (exec_LD16s s m).1.f % 16 = 0 := by
  unfold exec_LD16s
  all_goals simp [h, pop_af_f_low]

theorem exec_LDHa8_f_low (s : CpuState) (m : Mem) (h : s.f % 16 = 0) :
    (exec_LDHa8 s m).1.f % 16 = 0 := by
  unfold exec_LDHa8
  all_goals simp [h, pop_af_f_low]

theorem exec_LDHA_f_low (s : CpuState) (m : Mem) (h : s.f % 16 = 0) :
    (exec_LDHA s m).1.f % 16 = 0 := by
  unfold exec_LDHA
  all_goals simp [h, pop_af_f_low]

theorem exec_LDCA_f_low (s : CpuState) (m : Mem) (h : s.f % 16 = 0) :
    (exec_LDCA s m).1.f % 16 = 0 := by
  unfold exec_LDCA
  all_goals simp [h, pop_af_f_low]

theorem exec_LDAC_f_low (s : CpuState) (m : Mem) (h : s.f % 16 = 0) :
    (exec_LDAC s m).1.f % 16 = 0 := by
  unfold exec_LDAC
  all_goals simp [h, pop_af_f_low]

theorem exec_LDHLS_f_low (s : CpuState) (m : Mem) (h : s.f % 16 = 0) :
    (exec_LDHLS s m).1.f % 16 = 0 := by
  unfold exec_LDHLS
  all_goals simp [h, pop_af_f_low]

theorem exec_LDSHL_f_low (s : CpuState) (m : Mem) (h : s.f % 16 = 0) :
    (exec_LDSHL s m).1.f % 16 = 0 := by
  unfold exec_LDSHL
  all_goals simp [h, pop_af_f_low]

theorem exec_LD16A_f_low (s : CpuState) (m : Mem) (h : s.f % 16 = 0) :
    (exec_LD16A s m).1.f % 16 = 0 := by
  unfold exec_LD16A
  all_goals simp [h, pop_af_f_low]

theorem exec_LDA16_f_low (s : CpuState) (m : Mem) (h : s.f % 16 = 0) :
    (exec_LDA16 s m).1.f % 16 = 0 := by
  unfold exec_LDA16
  all_goals simp [h, pop_af_f_low]

theorem exec_INC1_f_low (s : CpuState) (m : Mem) (opcode : Nat) (h : s.f % 16 = 0) :
    (exec_INC1 s m opcode).1.f % 16 = 0 := by
  unfold exec_INC1
  repeat' split
  all_goals simp [h, pop_af_f_low]

theorem exec_INC2_f_low (s : CpuState) (m : Mem) (opcode : Nat) (h : s.f % 16 = 0) :
    (exec_INC2 s m opcode).1.f % 16 = 0 := by
  unfold exec_INC2
  repeat' split
  all_goals simp [h, pop_af_f_low]

theorem exec_INC3_f_low (s : CpuState) (m : Mem) (h : s.f % 16 = 0) :
    (exec_INC3 s m).1.f % 16 = 0 := by
  unfold exec_INC3
  all_goals simp [h, pop_af_f_low]

theorem exec_INC16_f_low (s : CpuState) (m : Mem) (opcode : Nat) (h : s.f % 16 = 0) :
    (exec_INC16 s m opcode).1.f % 16 = 0 := by
  unfold exec_INC16
  repeat' split
  all_goals simp [h, pop_af_f_low]

theorem exec_DEC1_f_low (s : CpuState) (m : Mem) (opcode : Nat) (h : s.f % 16 = 0) :
    (exec_DEC1 s m opcode).1.f % 16 = 0 := by
  unfold exec_DEC1
  repeat' split
  all_goals simp [h, pop_af_f_low]

theorem exec_DEC2_f_low (s : CpuState) (m : Mem) (opcode : Nat) (h : s.f % 16 = 0) :
    (exec_DEC2 s m opcode).1.f % 16 = 0 := by
  unfold exec_DEC2
  repeat' split
  all_goals simp [h, pop_af_f_low]

theorem exec_DEC3_f_low (s : CpuState) (m : Mem) (h : s.f % 16 = 0) :
    (exec_DEC3 s m).1.f % 16 = 0 := by
  unfold exec_DEC3
  all_goals simp [h, pop_af_f_low]

theorem exec_DEC16_f_low (s : CpuState) (m : Mem) (opcode : Nat) (h : s.f % 16 = 0) :
    (exec_DEC16 s m opcode).1.f % 16 = 0 := by
  unfold exec_DEC16
  repeat' split
  all_goals simp [h, pop_af_f_low]

theorem exec_ADD16_f_low (s : CpuState) (m : Mem) (opcode : Nat) (h : s.f % 16 = 0) :
    (exec_ADD16 s m opcode).1.f % 16 = 0 := by
  unfold exec_ADD16
  repeat' split
  all_goals simp [h, pop_af_f_low]

theorem exec_ADDSP_f_low (s : CpuState) (m : Mem) (h : s.f % 16 = 0) :
    (exec_ADDSP s m).1.f % 16 = 0 := by
  unfold exec_ADDSP
  all_goals simp [h, pop_af_f_low]

theorem exec_RETI_f_low (s : CpuState) (m : Mem) (h : s.f % 16 = 0) :
    (exec_RETI s m).1.f % 16 = 0 := by
  unfold exec_RETI
  exact exec_RET_f_low _ m h

theorem cb_RLC_f_low (s : CpuState) (m : Mem) (idx : Nat) (h : s.f % 16 = 0) :
    (cb_RLC s m idx).1.f % 16 = 0 := by
  unfold cb_RLC
  all_goals simp [h]

theorem cb_RRC_f_low (s : CpuState) (m : Mem) (idx : Nat) (h : s.f % 16 = 0) :
    (cb_RRC s m idx).1.f % 16 = 0 := by
  unfold cb_RRC
  all_goals simp [h]

theorem cb_RL_f_low (s : CpuState) (m : Mem) (idx : Nat) (h : s.f % 16 = 0) :
    (cb_RL s m idx).1.f % 16 = 0 := by
  unfold cb_RL
  all_goals simp [h]

theorem cb_RR_f_low (s : CpuState) (m : Mem) (idx : Nat) (h : s.f % 16 = 0) :
    (cb_RR s m idx).1.f % 16 = 0 := by
  unfold cb_RR
  all_goals simp [h]

theorem cb_SLA_f_low (s : CpuState) (m : Mem) (idx : Nat) (h : s.f % 16 = 0) :
    (cb_SLA s m idx).1.f % 16 = 0 := by
  unfold cb_SLA
  all_goals simp [h]

theorem cb_SRA_f_low (s : CpuState) (m : Mem) (idx : Nat) (h : s.f % 16 = 0) :
    (cb_SRA s m idx).1.f % 16 = 0 := by
  unfold cb_SRA
  all_goals simp [h]

theorem cb_SWAP_f_low (s : CpuState) (m : Mem) (idx : Nat) (h : s.f % 16 = 0) :
    (cb_SWAP s m idx).1.f % 16 = 0 := by
  unfold cb_SWAP
  all_goals simp [h]

theorem cb_SRL_f_low (s : CpuState) (m : Mem) (idx : Nat) (h : s.f % 16 = 0) :
    (cb_SRL s m idx).1.f % 16 = 0 := by
  unfold cb_SRL
  all_goals simp [h]

theorem cb_BIT_f_low (s : CpuState) (m : Mem) (idx bit : Nat) (h : s.f % 16 = 0) :
    (cb_BIT s m idx bit).1.f % 16 = 0 := by
  unfold cb_BIT
  all_goals simp [h]

theorem cb_RES_f_low (s : CpuState) (m : Mem) (idx bit : Nat) (h : s.f % 16 = 0) :
    (cb_RES s m idx bit).1.f % 16 = 0 := by
  unfold cb_RES
  all_goals simp [h]

theorem cb_SET_f_low (s : CpuState) (m : Mem) (idx bit : Nat) (h : s.f % 16 = 0) :
    (cb_SET s m idx bit).1.f % 16 = 0 := by
  unfold cb_SET
  all_goals simp [h]

theorem cb_RLC2_f_low (s : CpuState) (m : Mem) (h : s.f % 16 = 0) :
    (cb_RLC2 s m).1.f % 16 = 0 := by
  unfold cb_RLC2
  all_goals simp [h]

theorem cb_RRC2_f_low (s : CpuState) (m : Mem) (h : s.f % 16 = 0) :
    (cb_RRC2 s m).1.f % 16 = 0 := by
  unfold cb_RRC2
  all_goals simp [h]

theorem cb_RL2_f_low (s : CpuState) (m : Mem) (h : s.f % 16 = 0) :
    (cb_RL2 s m).1.f % 16 = 0 := by
  unfold cb_RL2
  all_goals simp [h]

theorem cb_RR2_f_low (s : CpuState) (m : Mem) (h : s.f % 16 = 0) :
    (cb_RR2 s m).1.f % 16 = 0 := by
  unfold cb_RR2
  all_goals simp [h]

theorem cb_SLA2_f_low (s : CpuState) (m : Mem) (h : s.f % 16 = 0) :
    (cb_SLA2 s m).1.f % 16 = 0 := by
  unfold cb_SLA2
  all_goals simp [h]

theorem cb_SRA2_f_low (s : CpuState) (m : Mem) (h : s.f % 16 = 0) :
    (cb_SRA2 s m).1.f % 16 = 0 := by
  unfold cb_SRA2
  all_goals simp [h]

theorem cb_SWAP2_f_low (s : CpuState) (m : Mem) (h : s.f % 16 = 0) :
    (cb_SWAP2 s m).1.f % 16 = 0 := by
  unfold cb_SWAP2
  all_goals simp [h]

theorem cb_SRL2_f_low (s : CpuState) (m : Mem) (h : s.f % 16 = 0) :
    (cb_SRL2 s m).1.f % 16 = 0 := by
  unfold cb_SRL2
  all_goals simp [h]

theorem cb_BIT2_f_low (s : CpuState) (m : Mem) (bit : Nat) (h : s.f % 16 = 0) :
    (cb_BIT2 s m bit).1.f % 16 = 0 := by
  unfold cb_BIT2
  all_goals simp [h]

theorem cb_RES2_f_low (s : CpuState) (m : Mem) (bit : Nat) (h : s.f % 16 = 0) :
    (cb_RES2 s m bit).1.f % 16 = 0 := by
  unfold cb_RES2
  all_goals simp [h]

theorem cb_SET2_f_low (s : CpuState) (m : Mem) (bit : Nat) (h : s.f % 16 = 0) :
    (cb_SET2 s m bit).1.f % 16 = 0 := by
  unfold cb_SET2
  all_goals simp [h]

theorem exec_CB_f_low (s : CpuState) (m : Mem) (h : s.f % 16 = 0) :
    (exec_CB s m).1.f % 16 = 0 := by
  unfold exec_CB
  cases hop : opcode_types2 (bus_get m (s.pc + 1))
  case OPC_RLC => simp only [hop]; simpa using cb_RLC_f_low s m _ h
  case OPC_RRC => simp only [hop]; simpa using cb_RRC_f_low s m _ h
  case OPC_RL => simp only [hop]; simpa using cb_RL_f_low s m _ h
  case OPC_RR => simp only [hop]; simpa using cb_RR_f_low s m _ h
  case OPC_SLA => simp only [hop]; simpa using cb_SLA_f_low s m _ h
  case OPC_SRA => simp only [hop]; simpa using cb_SRA_f_low s m _ h
  case OPC_SWAP => simp only [hop]; simpa using cb_SWAP_f_low s m _ h
  case OPC_SRL => simp only [hop]; simpa using cb_SRL_f_low s m _ h
  case OPC_BIT => simp only [hop]; simpa using cb_BIT_f_low s m _ _ h
  case OPC_RES => simp only [hop]; simpa using cb_RES_f_low s m _ _ h
  case OPC_SET => simp only [hop]; simpa using cb_SET_f_low s m _ _ h
  case OPC_RLC2 => simp only [hop]; simpa using cb_RLC2_f_low s m h
  case OPC_RRC2 => simp only [hop]; simpa using cb_RRC2_f_low s m h
  case OPC_RL2 => simp only [hop]; simpa using cb_RL2_f_low s m h
  case OPC_RR2 => simp only [hop]; simpa using cb_RR2_f_low s m h
  case OPC_SLA2 => simp only [hop]; simpa using cb_SLA2_f_low s m h
  case OPC_SRA2 => simp only [hop]; simpa using cb_SRA2_f_low s m h
  case OPC_SWAP2 => simp only [hop]; simpa using cb_SWAP2_f_low s m h
  case OPC_SRL2 => simp only [hop]; simpa using cb_SRL2_f_low s m h
  case OPC_BIT2 => simp only [hop]; simpa using cb_BIT2_f_low s m _ h
  case OPC_RES2 => simp only [hop]; simpa using cb_RES2_f_low s m _ h
  case OPC_SET2 => simp only [hop]; simpa using cb_SET2_f_low s m _ h

/-- The low nibble of F is preserved by the full opcode dispatch. -/
theorem cpu_handle_opcode_aux_f_low (s : CpuState) (m : Mem) (opc : Nat)
    (h : s.f % 16 = 0) : (cpu_handle_opcode_aux s m opc).1.f % 16 = 0 := by
  unfold cpu_handle_opcode_aux
  cases hop : opcode_types opc
  case OPC_NONE => exact h
  case OPC_NOP => simpa using exec_NOP_f_low s m h
  case OPC_STOP => simpa using exec_STOP_f_low s m h
  case OPC_HALT => simpa using exec_HALT_f_low s m h
  case OPC_EI => simpa using exec_EI_f_low s m h
  case OPC_DI => simpa using exec_DI_f_low s m h
  case OPC_DAA => simpa using exec_DAA_f_low s m h
  case OPC_CPL => simpa using exec_CPL_f_low s m h
  case OPC_SCF => simpa using exec_SCF_f_low s m h
  case OPC_CCF => simpa using exec_CCF_f_low s m h
  case OPC_RLCA => simpa using exec_RLCA_f_low s m h
  case OPC_RLA => simpa using exec_RLA_f_low s m h
  case OPC_RRCA => simpa using exec_RRCA_f_low s m h
  case OPC_RRA => simpa using exec_RRA_f_low s m h
  case OPC_CB => simpa using exec_CB_f_low s m h
  case OPC_CALL => simpa using exec_CALL_f_low s m opc h
  case OPC_CAL2 => simpa using exec_CAL2_f_low s m h
  case OPC_JRc => simpa using exec_JRc_f_low s m opc h
  case OPC_JR => simpa using exec_JR_f_low s m h
  case OPC_JPc => simpa using exec_JPc_f_low s m opc h
  case OPC_JP => simpa using exec_JP_f_low s m h
  case OPC_JPHL => simpa using exec_JPHL_f_low s m h
  case OPC_RETc => simpa using exec_RETc_f_low s m opc h
  case OPC_RET => simpa using exec_RET_f_low s m h
  case OPC_RETI => simpa using exec_RETI_f_low s m h
  case OPC_RST => simpa using exec_RST_f_low s m opc h
  case OPC_ADD => simpa using exec_ADD_f_low s m opc h
  case OPC_SUB => simpa using exec_SUB_f_low s m opc h
  case OPC_AND => simpa using exec_AND_f_low s m opc h
  case OPC_OR => simpa using exec_OR_f_low s m opc h
  case OPC_ADD2 => simpa using exec_ADD2_f_low s m h
  case OPC_SUB2 => simpa using exec_SUB2_f_low s m h
  case OPC_AND2 => simpa using exec_AND2_f_low s m h
  case OPC_OR2 => simpa using exec_OR2_f_low s m h
  case OPC_ADC => simpa using exec_ADC_f_low s m opc h
  case OPC_SBC => simpa using exec_SBC_f_low s m opc h
  case OPC_XOR => simpa using exec_XOR_f_low s m opc h
  case OPC_CP => simpa using exec_CP_f_low s m opc h
  case OPC_ADC2 => simpa using exec_ADC2_f_low s m h
  case OPC_SBC2 => simpa using exec_SBC2_f_low s m h
  case OPC_XOR2 => simpa using exec_XOR2_f_low s m h
  case OPC_CP2 => simpa using exec_CP2_f_low s m h
  case OPC_LD => simpa using exec_LD_f_low s m opc h
  case OPC_LD2 => simpa using exec_LD2_f_low s m opc h
  case OPC_LDd8 => simpa using exec_LDd8_f_low s m opc h
  case OPC_LDd82 => simpa using exec_LDd82_f_low s m h
  case OPC_LDa2r => simpa using exec_LDa2r_f_low s m opc h
  case OPC_LDr2a => simpa using exec_LDr2a_f_low s m opc h
  case OPC_LDd16 => simpa using exec_LDd16_f_low s m opc h
  case OPC_LD16s => simpa using exec_LD16s_f_low s m h
  case OPC_LDHa8 => simpa using exec_LDHa8_f_low s m h
  case OPC_LDHA => simpa using exec_LDHA_f_low s m h
  case OPC_LDCA => simpa using exec_LDCA_f_low s m h
  case OPC_LDAC => simpa using exec_LDAC_f_low s m h
  case OPC_LDHLS => simpa using exec_LDHLS_f_low s m h
  case OPC_LDSHL => simpa using exec_LDSHL_f_low s m h
  case OPC_LD16A => simpa using exec_LD16A_f_low s m h
  case OPC_LDA16 => simpa using exec_LDA16_f_low s m h
  case OPC_INC1 => simpa using exec_INC1_f_low s m opc h
  case OPC_INC2 => simpa using exec_INC2_f_low s m opc h
  case OPC_INC3 => simpa using exec_INC3_f_low s m h
  case OPC_INC16 => simpa using exec_INC16_f_low s m opc h
  case OPC_DEC1 => simpa using exec_DEC1_f_low s m opc h
  case OPC_DEC2 => simpa using exec_DEC2_f_low s m opc h
  case OPC_DEC3 => simpa using exec_DEC3_f_low s m h
  case OPC_DEC16 => simpa using exec_DEC16_f_low s m opc h
  case OPC_ADD16 => simpa using exec_ADD16_f_low s m opc h
  case OPC_ADDSP => simpa using exec_ADDSP_f_low s m h
  case OPC_POP => simpa using exec_POP_f_low s m opc h
  case OPC_PUSH => simpa using exec_PUSH_f_low s m opc h

theorem mbc_write_fold_rom (ws : List (Nat × Nat)) (S : SystemState) :
    (ws.foldl (fun s w => bus_write_mbc s w.1 w.2) S).rom = S.rom := by
  induction ws generalizing S with
  | nil => rfl
  | cons w ws ih =>
    simpa [(bus_write_mbc_rom_banks S w.1 w.2).1] using ih (bus_write_mbc S w.1 w.2)

end Gbc

/-- Claim C10: a write of any value to the DIV address 0xFF04 zeroes only
the visible DIV byte; the DIV prescaler count, TIMA, the TIMA prescaler
count, TMA and TAC are all unchanged by that write. -/
theorem C10_div_write_zeroes_only_div (t : Gbc.TimerState) (v : Nat) :
    (Gbc.gbc_timer_set_memory t 0xFF04 v).DIVA = 0 ∧
    (Gbc.gbc_timer_set_memory t 0xFF04 v).DIVA_PRESC_CNT = t.DIVA_PRESC_CNT ∧
    (Gbc.gbc_timer_set_memory t 0xFF04 v).TIMA = t.TIMA ∧
    (Gbc.gbc_timer_set_memory t 0xFF04 v).TIMA_PRESC_CNT = t.TIMA_PRESC_CNT ∧
    (Gbc.gbc_timer_set_memory t 0xFF04 v).TMA = t.TMA ∧
    (Gbc.gbc_timer_set_memory t 0xFF04 v).TAC = t.TAC := by
  refine ⟨rfl, rfl, rfl, rfl, rfl, rfl⟩

/-- Claim C7 (code bug, missing `break` in ppu.c): writing v to LYC
(0xFF45) does store v in `ppu.lyc`, but reading 0xFF45 back returns the
BGP register, not v: the `case LYC:` block of `gbc_ppu_get_memory` falls
through into `case BGP:`.  At the failing input (BGP = 0, write 0x05 to
LYC) the read-back is 0x00 ≠ 0x05. -/
theorem C7_lyc_readback_returns_bgp :
    (∀ (p : Gbc.PpuState) (v : Nat),
        Gbc.gbc_ppu_get_memory (Gbc.gbc_ppu_set_memory p 0xFF45 v) 0xFF45
          = p.bgp ∧
        (Gbc.gbc_ppu_set_memory p 0xFF45 v).lyc = v) ∧
    Gbc.gbc_ppu_get_memory (Gbc.gbc_ppu_set_memory Gbc.ppu0 0xFF45 0x05) 0xFF45 = 0x00 ∧
    (0x00 : Nat) ≠ 0x05 := by
  refine ⟨fun p v => ⟨rfl, rfl⟩, rfl, by decide⟩

/-- Claim C4 (code bug in ppu.c `ppu_pixel_fetcher_do`): for an 8x16
object the fetcher assigns `tile | 0x01` to the TOP half
(`tile_y_offset < 8`) and `tile & 0xFE` to the BOTTOM half, the inverse
of the claimed (and Pan-Docs) assignment; and the V-flip attribute never
swaps the two tiles - the tile number does not depend on it, V-flip only
changes the row index inside `obj_tile_data_index` (where a flipped top
row 0 even addresses byte 16, the first row of the *following* tile).
Failing input: obj_size = 16, tile index 0x04, row offset 2 (top half):
the code fetches tile 0x05 where the claim requires 0x04 & 0xFE = 0x04. -/
theorem C4_obj16_tile_selection_inverted :
    (Gbc.obj_fetch_tile_number 16 0x04 2).1 = 0x05 ∧
    (0x05 : Nat) ≠ 0x04 &&& 0xFE ∧
    (Gbc.obj_fetch_tile_number 16 0x04 10).1 = 0x04 ∧
    (0x04 : Nat) ≠ 0x04 ||| 0x01 ∧
    Gbc.obj_tile_data_index true 0x05 0 0 = 0x05 * 16 + 16 := by
  decide

/-- Claim C9: after any sequence of MBC5 register writes (dispatched
through `bus_write_mbc`), every read of an address in 0x0000-0x3FFF
returns the byte of ROM bank 0 at that offset, unchanged by the banking
state. -/
theorem C9_mbc5_fixed_bank0_reads (S : Gbc.SystemState) (ws : List (Nat × Nat))
    (addr : Nat) (h : addr ≤ 0x3FFF) :
    (Gbc.bus_get_memory (ws.foldl (fun s w => Gbc.bus_write_mbc s w.1 w.2) S) addr).1
      = S.rom 0 (addr &&& 0x3FFF) := by
  rw [Gbc.bus_get_memory, if_pos h, Gbc.mbc_write_fold_rom]

/-- Witness for C9: from the concrete state `sys0`, after writing the ROM
bank registers (low byte 0x05 to 0x2000, bit 8 to 0x3000), enabling cart
RAM and selecting RAM bank 3, the read of 0x0100 still returns ROM bank
0's byte. -/
theorem C9_mbc5_fixed_bank0_reads_witness :
    (0x0100 : Nat) ≤ 0x3FFF ∧
    (Gbc.bus_get_memory
        ([((0x2000 : Nat), (0x05 : Nat)), (0x3000, 0x01), (0x0000, 0x0A), (0x4000, 0x03)].foldl
          (fun s w => Gbc.bus_write_mbc s w.1 w.2) Gbc.sys0) 0x0100).1
      = Gbc.sys0.rom 0 (0x0100 &&& 0x3FFF) :=
  ⟨by decide, C9_mbc5_fixed_bank0_reads Gbc.sys0 _ 0x0100 (by decide)⟩

/-- Claim C1 (code bug, missing `break` in bus.c): a read of 0xFF55 is
claimed to return `(remaining/16 - 1)` with bit 7 reflecting the
inactive flag, and `bus_get_memory` does compute exactly that value -
but the `case 0xFF55:` block lacks a `break`, falls through into the PPU
dispatch, and the function returns `gbc_ppu_get_memory(0xFF55)`, which
is 0 for every state.  At the failing input (remaining length 32,
transfer inactive) the claimed value is (32/16 - 1) ||| 0x80 = 0x81,
while the code returns 0. -/
theorem C1_ff55_read_falls_through :
    (∀ S : Gbc.SystemState, (Gbc.bus_get_memory S 0xFF55).1 = 0) ∧
    (Gbc.bus_get_memory Gbc.sys0 0xFF55).1 = 0 ∧
    Gbc.sys0.vram_dma.len = 32 ∧
    Gbc.sys0.vram_dma.active = false ∧
    (0 : Nat) ≠ (32 / 16 - 1) ||| 0x80 := by
  refine ⟨fun S => rfl, rfl, rfl, rfl, by decide⟩

/-- Claim C2 (code bug): joypad.c never touches the interrupt-flags
register - no code in the repository raises the Joypad IRQ.  At the
failing input (selection = buttons group, previous low nibble 0x0F, the
host reports button A pressed) the computed low nibble drops bit 0 from
1 to 0, yet IF is unchanged and its bit 4 stays clear, where the claim
requires it to be raised. -/
theorem C2_joypad_edge_raises_no_irq :
    ({ Gbc.sys0 with JOYP := 0x1F, buttons := 0x01 } : Gbc.SystemState).JOYP &&& 0x0F = 0x0F ∧
    (Gbc.bus_get_memory { Gbc.sys0 with JOYP := 0x1F, buttons := 0x01 } 0xFF00).1 &&& 0x0F = 0x0E ∧
    (Gbc.bus_get_memory { Gbc.sys0 with JOYP := 0x1F, buttons := 0x01 } 0xFF00).2.IF
      = ({ Gbc.sys0 with JOYP := 0x1F, buttons := 0x01 } : Gbc.SystemState).IF ∧
    (Gbc.bus_get_memory { Gbc.sys0 with JOYP := 0x1F, buttons := 0x01 } 0xFF00).2.IF &&& 0x10 = 0 := by
  refine ⟨by decide, by decide, rfl, by decide⟩

/-- Counterexample for Claim C5: `div_apu_512Hz` is true on a RISING edge
of DIV bit 5 (last DIV 0x00, current DIV 0x20), and with that strobe set
the pulse channel's length sub-event fires: the concrete channel
`ch12_len63` (length timer 63, 256 Hz prescaler at 1) is turned off by
`apu_ch12_tick`, while with the strobe clear it stays running.  The claim
says the frame sequencer advances exactly on a falling edge and that no
length/sweep/envelope sub-event is clocked on a rising edge. -/
theorem C5_counterexample_rising_edge_clocks_length :
    Gbc.div_apu_512Hz 0x00 0x20 = true ∧
    (Gbc.apu_ch12_tick Gbc.ch12_len63 Gbc.apu_regs0 true).1.running = false ∧
    (Gbc.apu_ch12_tick Gbc.ch12_len63 Gbc.apu_regs0 false).1.running = true := by
  refine ⟨rfl, rfl, rfl⟩

/-- Claim C5 (amended): the APU frame-sequencer strobe computed by
`gbc_apu_tick` fires on EVERY change of DIV bit 5 - either edge - and it
uses bit 5 in both speed modes (the toggle rate of bit 5 is 512 Hz in
single-speed); the length/sweep/envelope sub-events are derived from this
strobe by further prescalers and are therefore also clocked on rising
edges (demonstrated at the concrete channel `ch12_len63`, whose length
tick fires and disables the channel). -/
theorem C5_frame_sequencer_any_edge_of_bit5 :
    (∀ last_div div : Nat,
        Gbc.div_apu_512Hz last_div div
          = decide (last_div.testBit 5 ≠ div.testBit 5)) ∧
    (Gbc.apu_ch12_tick Gbc.ch12_len63 Gbc.apu_regs0 true).1.running = false ∧
    (Gbc.apu_ch12_tick Gbc.ch12_len63 Gbc.apu_regs0 true).1.length_timer = 0 := by
  refine ⟨fun ld d => ?_, rfl, rfl⟩
  have h32 : Gbc.DIV_APU_BIT = 2 ^ 5 := by decide
  unfold Gbc.div_apu_512Hz
  rw [h32, Nat.and_two_pow, Nat.and_two_pow]
  cases h1 : ld.testBit 5 <;> cases h2 : d.testBit 5 <;> simp

set_option maxRecDepth 16384 in
/-- Counterexample for Claim C6: from SP = 0xFFFE, AF = 0x1234, executing
PUSH AF then POP BC leaves BC = 0x1234, not the claimed 0x1230: POP
masks the popped low byte to its high nibble only when the destination
pair is AF, and the bytes of F round-trip unchanged through the stack. -/
theorem C6_counterexample_pop_bc_unmasked :
    Gbc.pushpop_step2.1.BC = 0x1234 ∧ Gbc.pushpop_step2.1.BC ≠ 0x1230 := by
  have hbc : Gbc.pushpop_step2.1.BC = 0x1234 := rfl
  exact ⟨hbc, by rw [hbc]; decide⟩

set_option maxRecDepth 16384 in
/-- Claim C6 (amended): from SP = 0xFFFE, AF = 0x1234, `PUSH AF; POP BC`
yields BC = 0x1234 (all eight bits of F survive the push/pop through
memory); the masking to the high nibble happens only on POP AF:
`PUSH AF; POP AF` yields AF = 0x1230. -/
theorem C6_push_af_pop_bc_all_bits :
    Gbc.pushpop_step2.1.BC = 0x1234 ∧ Gbc.pushpopaf_step2.1.AF = 0x1230 := by
  refine ⟨rfl, rfl⟩

set_option maxRecDepth 16384 in
/-- Counterexample for Claim C3: with IE = IF = 0x01 pending and IME off,
tick 1 executes EI at 0x0100 and IME is already true when it completes;
tick 2 starts interrupt dispatch (2 cycles, PC still 0x0101 - the
following instruction does NOT execute); tick 3 dispatches: PC = 0x0040
and the pushed return address on the stack is 0x0101, the address of the
never-executed instruction after EI.  The claim requires that the pending
interrupt not be dispatched until that instruction has executed. -/
theorem C3_counterexample_ei_no_delay :
    Gbc.ei_tick1.1.interrupts_enabled = true ∧
    Gbc.ei_tick1.1.pc = 0x0101 ∧
    Gbc.ei_tick2.2.2 = 2 ∧
    Gbc.ei_tick2.1.pc = 0x0101 ∧
    Gbc.ei_tick3.1.pc = 0x0040 ∧
    Gbc.bus_get Gbc.ei_tick3.2.1 0xFFFD = 0x01 ∧
    Gbc.bus_get Gbc.ei_tick3.2.1 0xFFFC = 0x01 := by
  refine ⟨rfl, rfl, rfl, rfl, rfl, rfl, rfl⟩

set_option maxRecDepth 16384 in
/-- Claim C3 (amended): EI sets IME immediately (the handler assigns
`interrupts_enabled = true` with no one-instruction delay), DI clears it
immediately, and consequently an interrupt pending when EI executes is
dispatched BEFORE the instruction following EI: in the concrete EI
scenario the CPU reaches the 0x0040 vector with return address 0x0101
pushed, that instruction never having executed. -/
theorem C3_amended_ei_immediate :
    (∀ (s : Gbc.CpuState) (m : Gbc.Mem), Gbc.bus_get m s.pc = 0xFB →
        (Gbc.cpu_handle_opcode s m).1.interrupts_enabled = true) ∧
    (∀ (s : Gbc.CpuState) (m : Gbc.Mem), Gbc.bus_get m s.pc = 0xF3 →
        (Gbc.cpu_handle_opcode s m).1.interrupts_enabled = false) ∧
    Gbc.ei_tick3.1.pc = 0x0040 ∧
    Gbc.bus_get Gbc.ei_tick3.2.1 0xFFFD = 0x01 ∧
    Gbc.bus_get Gbc.ei_tick3.2.1 0xFFFC = 0x01 := by
  refine ⟨?_, ?_, rfl, rfl, rfl⟩
  · intro s m hm
    unfold Gbc.cpu_handle_opcode
    rw [hm]
    rfl
  · intro s m hm
    unfold Gbc.cpu_handle_opcode
    rw [hm]
    rfl

set_option maxRecDepth 16384 in
/-- Witness for C3 (amended): the EI at 0x0100 of `mem_ei` switches IME
on within its own step, and the DI at 0x0102 switches it off. -/
theorem C3_amended_ei_immediate_witness :
    (Gbc.cpu_handle_opcode Gbc.cpu_init Gbc.mem_ei).1.interrupts_enabled = true ∧
    (Gbc.cpu_handle_opcode { Gbc.cpu_init with pc := 0x0102 }
        Gbc.mem_ei).1.interrupts_enabled = false :=
  ⟨C3_amended_ei_immediate.1 Gbc.cpu_init Gbc.mem_ei rfl,
   C3_amended_ei_immediate.2.1 { Gbc.cpu_init with pc := 0x0102 } Gbc.mem_ei rfl⟩

/-- Claim C8: the low nibble of F is 0 in the reset state and is 0 after
any instruction completes, for every CPU state and memory whose F has a
zero low nibble: POP AF masks the popped byte to its high nibble, and no
handler or flag helper writes bits 0-3 of F. -/
theorem C8_f_low_nibble_invariant :
    Gbc.cpu_init.f % 16 = 0 ∧
    ∀ (s : Gbc.CpuState) (m : Gbc.Mem), s.f % 16 = 0 →
      (Gbc.cpu_handle_opcode s m).1.f % 16 = 0 := by
  refine ⟨rfl, fun s m h => ?_⟩
  unfold Gbc.cpu_handle_opcode
  exact Gbc.cpu_handle_opcode_aux_f_low _ m _ h

set_option maxRecDepth 16384 in
/-- Witness for C8: the invariant applied to the reset state running the
PUSH AF program. -/
theorem C8_f_low_nibble_invariant_witness :
    Gbc.cpu_init.f % 16 = 0 ∧
    (Gbc.cpu_handle_opcode Gbc.cpu_init Gbc.mem_pushpop).1.f % 16 = 0 :=
  ⟨rfl, C8_f_low_nibble_invariant.2 Gbc.cpu_init Gbc.mem_pushpop rfl⟩
